import Mathlib

set_option maxHeartbeats 1000000

/- Verification development for the doi2pdf tool (src/main.py).

   The pure logic and control flow of the program are shallowly embedded:
   stateful code becomes explicit state passing, the external world (HTTP
   responses, the browser session, the file system) becomes an explicit
   environment value, raised exceptions become constructors of result
   types, and sys.exit becomes a distinguished outcome. -/

namespace Doi2Pdf

/-! ## Python-level string helpers -/

/-- Substring occurrence test on character lists (the Python in operator). -/
def containsL (needle : List Char) : List Char → Bool
  | [] => needle.isEmpty
  | c :: t => needle.isPrefixOf (c :: t) || containsL needle t

/-- Python substring containment: needle occurs somewhere in hay. -/
def strContains (hay needle : String) : Bool := containsL needle.toList hay.toList

/-- Python str.lower for the ASCII header values handled here. -/
def pyLower (s : String) : String := String.mk (s.toList.map Char.toLower)

/-- Python str.startswith. -/
def pyStartsWith (s pre : String) : Bool := pre.toList.isPrefixOf s.toList

/-- Python str.rstrip with an explicit character set. -/
def pyRstripChars (s : String) (cs : List Char) : String :=
  String.mk ((s.toList.reverse.dropWhile (fun c => cs.contains c)).reverse)

/-- Python str.strip: whitespace removed from both ends. -/
def pyStripWS (s : String) : String :=
  String.mk (((s.toList.dropWhile Char.isWhitespace).reverse.dropWhile Char.isWhitespace).reverse)

/-- Python single-character str.replace. -/
def pyReplaceChar (s : String) (a b : Char) : String :=
  String.mk (s.toList.map (fun c => if c = a then b else c))

/-- os.path.join for the simple directory-plus-filename cases used here. -/
def pyPathJoin (d f : String) : String :=
  if d = "" then f
  else if d.toList.getLast? = some '/' then d ++ f
  else d ++ "/" ++ f

/-- Python truthiness of an optional string (None and the empty string are falsy). -/
def truthyS : Option String → Bool
  | some s => !(s == "")
  | none => false

/-- Python truthiness of an optional bytes value (None and empty bytes are falsy). -/
def truthyBytes : Option (List Nat) → Bool
  | some b => !b.isEmpty
  | none => false

/-- Python x or y where x is an optional string and y the next alternative. -/
def pyOrS (a : Option String) (b : String) : String :=
  match a with
  | some s => if s = "" then b else s
  | none => b

/-! ## Content Fetcher: download_pdf_content (src/main.py lines 351-401) -/

/-- Outcome of the underlying HTTP GET performed by download_pdf_content:
a 2xx response with its content-type header and body bytes, a transport or
HTTP-status failure (requests.exceptions.RequestException), or a fault of a
kind the function does not catch. -/
inductive HTTPResult where
  | ok (contentTypeHeader : String) (body : List Nat)
  | requestError (msg : String)
  | unexpected (msg : String)
  deriving DecidableEq

/-- Result of download_pdf_content: returned bytes, a raised NotFoundError
with its message, or a propagated unexpected fault. -/
inductive DLResult where
  | ok (bytes : List Nat)
  | nfe (msg : String)
  | raised (msg : String)
  deriving DecidableEq

def DLResult.isOk : DLResult → Bool
  | .ok _ => true
  | _ => false

/-- The %PDF- document signature bytes. -/
def pdfSignature : List Nat := [37, 80, 68, 70, 45]

/-- Fragment stripping: everything before the first hash character. -/
def strip_fragment (u : String) : String :=
  String.mk (u.toList.takeWhile (fun c => c ≠ '#'))

def content_invalid_msg (u ct : String) : String :=
  "URL " ++ u ++ " did not return a PDF. Content-type: " ++ ct ++
    ". Try opening the URL in a browser."

def empty_pdf_msg (u : String) : String :=
  "Downloaded PDF from " ++ u ++ " is empty."

def request_failed_msg (u m : String) : String :=
  "Failed to download PDF from " ++ u ++ ": " ++ m

/-- Shallow embedding of download_pdf_content. The fragment is stripped from
the URL, the content-type header is lowercased; when it contains neither
application/pdf nor octet-stream, the first kilobyte must start with the
%PDF- signature, and the peeked chunk is recombined with the rest of the
stream; an empty final byte string raises NotFoundError. -/
def download_pdf_content (pdf_url : String) (resp : HTTPResult) : DLResult :=
  let u := strip_fragment pdf_url
  match resp with
  | .requestError m => .nfe (request_failed_msg u m)
  | .unexpected m => .raised m
  | .ok ctHeader body =>
    let content_type := pyLower ctHeader
    if !(strContains content_type "application/pdf") &&
        !(strContains content_type "octet-stream") then
      let first_chunk := body.take 1024
      if !(pdfSignature.isPrefixOf first_chunk) then
        .nfe (content_invalid_msg u content_type)
      else
        let pdf_bytes := first_chunk ++ body.drop 1024
        if pdf_bytes.isEmpty then .nfe (empty_pdf_msg u) else .ok pdf_bytes
    else
      let pdf_bytes := body
      if pdf_bytes.isEmpty then .nfe (empty_pdf_msg u) else .ok pdf_bytes

/-- Example bytes of a body that begins with the %PDF- signature. -/
def pdfHeadBytes : List Nat := [37, 80, 68, 70, 45, 49, 46, 52]

/-! ## Metadata Resolver pieces: get_paper_metadata (src/main.py lines 58-196) -/

/-- The open_access sub-record of an OpenAlex work. -/
structure OpenAccessInfo where
  oa_url : Option String
  deriving DecidableEq

/-- The primary_location sub-record of an OpenAlex work. -/
structure PrimaryLocation where
  is_oa : Bool
  landing_page_url : Option String
  deriving DecidableEq

/-- The best_oa_location sub-record of an OpenAlex work. -/
structure BestOALocation where
  pdf_url : Option String
  landing_page_url : Option String
  deriving DecidableEq

/-- The fields of an OpenAlex work record consumed by get_paper_metadata. -/
structure WorkMetadata where
  doi : Option String
  display_name : Option String
  open_access : Option OpenAccessInfo
  primary_location : Option PrimaryLocation
  best_oa_location : Option BestOALocation
  deriving DecidableEq

/-- Candidate-URL selection of get_paper_metadata (lines 139-182). The
host_venue block and both landing_page_url branches of the source are
no-ops (pass), so only oa_url and, behind the primary_location.is_oa gate,
best_oa_location.pdf_url can be selected. -/
def select_pdf_url (m : WorkMetadata) : Option String :=
  let pdf_url : Option String :=
    match m.open_access with
    | some oa => oa.oa_url
    | none => none
  if truthyS pdf_url then pdf_url
  else
    match m.primary_location with
    | some pl =>
      if pl.is_oa then
        match m.best_oa_location with
        | some b => if truthyS b.pdf_url then b.pdf_url else pdf_url
        | none => pdf_url
      else pdf_url
    | none => pdf_url

/-- The selection rule exactly as the spec words it: first present of
open_access.oa_url then best_oa_location.pdf_url wins, the rest are not
consulted, and no landing page is ever selected. Written from the spec for
comparison with select_pdf_url. -/
def spec_select_pdf_url (m : WorkMetadata) : Option String :=
  let oa : Option String :=
    match m.open_access with
    | some o => o.oa_url
    | none => none
  if truthyS oa then oa
  else
    match m.best_oa_location with
    | some b => if truthyS b.pdf_url then b.pdf_url else none
    | none => none

/-- The selection rule as amended: best_oa_location.pdf_url is consulted
only when the record's primary_location exists and is flagged open access. -/
def amended_select_pdf_url (m : WorkMetadata) : Option String :=
  let oa : Option String :=
    match m.open_access with
    | some o => o.oa_url
    | none => none
  if truthyS oa then oa
  else
    match m.primary_location, m.best_oa_location with
    | some pl, some b => if pl.is_oa && truthyS b.pdf_url then b.pdf_url else oa
    | some _, none => oa
    | none, _ => oa

/-- DOI prefix normalization of get_paper_metadata (lines 70-78); 16 and 15
are the lengths of the two stripped prefixes. -/
def normalize_doi (doi_in : String) : String :=
  let cs := doi_in.toList
  if ("https://doi.org/".toList).isPrefixOf cs then String.mk (cs.drop 16)
  else if ("http://doi.org/".toList).isPrefixOf cs then String.mk (cs.drop 15)
  else doi_in

def openalex_works_base : String := "https://api.openalex.org/works"

/-- The OpenAlex API URL built for a DOI identifier (line 77). -/
def doi_api_url (doi_in : String) : String :=
  openalex_works_base ++ "/https://doi.org/" ++ normalize_doi doi_in

/-- Stripping of the https prefix from the service-returned doi field
(lines 132-134). -/
def strip_metadata_doi : Option String → Option String
  | some fd =>
    if ("https://doi.org/".toList).isPrefixOf fd.toList then
      some (String.mk (fd.toList.drop 16))
    else some fd
  | none => none

/-! ## arXiv abstract-URL correction (src/main.py lines 184-194) -/

/-- Match of the regex literal part at one position: the characters
a r x i v . o r g / a b s / where the dot matches any character, as in the
unescaped re.search pattern of the source. Returns the rest on a match. -/
def matchArxivAbs : List Char → Option (List Char)
  | 'a' :: 'r' :: 'x' :: 'i' :: 'v' :: _ :: 'o' :: 'r' :: 'g' :: '/' ::
      'a' :: 'b' :: 's' :: '/' :: rest => some rest
  | _ => none

/-- re.search for the arXiv abstract pattern: leftmost start position where
the literal part and a non-empty greedy run of non-slash characters match;
returns the captured group. -/
def reSearchArxiv : List Char → Option String
  | [] => none
  | c :: t =>
    match matchArxivAbs (c :: t) with
    | some rest =>
      let cap := rest.takeWhile (fun x => x ≠ '/')
      if cap.isEmpty then reSearchArxiv t else some (String.mk cap)
    | none => reSearchArxiv t

/-- The arXiv correction rule: when the URL contains the literal substring
arxiv.org/abs/ and the identifier can be extracted, rewrite to the direct
PDF form; otherwise the URL is returned unchanged. -/
def arxiv_abs_fix (pdf_url : String) : String :=
  if strContains pdf_url "arxiv.org/abs/" then
    match reSearchArxiv pdf_url.toList with
    | some arxiv_id => "https://arxiv.org/pdf/" ++ arxiv_id ++ ".pdf"
    | none => pdf_url
  else pdf_url

/-! ## Rendered-Page Extractor: retrieve_scihub_pdf_link_selenium
    (src/main.py lines 216-348) -/

/-- State of the automated browser handle: how many times real teardown has
run and whether quit has been replaced by the no-op lambda. -/
structure DriverState where
  quitCalls : Nat
  quitPatched : Bool
  deriving DecidableEq

/-- Behaviour of driver.quit when the finally block invokes it. -/
inductive QuitOutcome where
  | ok
  | osError (msg : String)
  | wdError (msg : String)
  | otherError (msg : String)
  deriving DecidableEq

/-- Which exit path the body of the extractor takes for this session: the
browser fails to start, the page carries a not-found marker, a PDF element
with a src is found (directly or by the fallback scan), no link is found,
or a WebDriver or unexpected fault occurs mid-body. -/
inductive SelBodyOutcome where
  | chromeRaises (msg : String)
  | notFoundText
  | pdfFound (src : String)
  | fallbackScanFound (src : String)
  | noLink
  | wdError (msg : String)
  | otherError (msg : String)
  deriving DecidableEq

/-- Environment for one extractor call. -/
structure SelEnv where
  body : SelBodyOutcome
  quitOutcome : QuitOutcome
  cookieResult : Option (List (String × String))
  deriving DecidableEq

/-- Result of the extractor: a returned link with cookies, or a raised
ValueError or NotFoundError. -/
inductive SelResult where
  | retOk (src : String) (cookies : Option (List (String × String)))
  | raiseValueError (msg : String)
  | raiseNotFound (msg : String)
  deriving DecidableEq

/-- urljoin as exercised here, joining a relative reference to the fallback
base URL. Only this branch structure matters for the verified claims. -/
def pyUrljoin (base ref : String) : String :=
  pyRstripChars base ['/'] ++ "/" ++ ref

/-- src resolution (lines 300-304): protocol-relative links get the https
scheme, other non-absolute links are joined to the configured base URL. -/
def resolve_pdf_src (current_sci_hub_url src : String) : String :=
  if pyStartsWith src "//" then "https:" ++ src
  else if !(pyStartsWith src "http") then pyUrljoin current_sci_hub_url src
  else src

/-- The finally block (lines 332-347): one explicit quit preceded by an INFO
log; a quit error of any kind is demoted to a WARNING and never re-raised;
after a successful quit the handle's quit method is monkeypatched to a
no-op lambda. Returns the driver state and the log entries emitted. -/
def driverTeardown (q : QuitOutcome) (d : DriverState) : DriverState × List (String × String) :=
  let d := { d with quitCalls := d.quitCalls + 1 }
  match q with
  | .ok => ({ d with quitPatched := true }, [("INFO", "[Selenium] Quitting WebDriver.")])
  | .osError m =>
    (d, [("INFO", "[Selenium] Quitting WebDriver."),
      ("WARNING", "[Selenium] OSError during explicit driver.quit(): " ++ m ++
        ". This might be a cleanup issue with the driver.")])
  | .wdError m =>
    (d, [("INFO", "[Selenium] Quitting WebDriver."),
      ("WARNING", "[Selenium] WebDriverException during explicit driver.quit(): " ++ m ++ ".")])
  | .otherError m =>
    (d, [("INFO", "[Selenium] Quitting WebDriver."),
      ("WARNING", "[Selenium] Unexpected error during explicit driver.quit(): " ++ m ++ ".")])

/-- A later quit call on the same handle, e.g. from the destructor: a no-op
when the handle was patched, otherwise teardown would run again. -/
def quitAgain (d : DriverState) : DriverState :=
  if d.quitPatched then d else { d with quitCalls := d.quitCalls + 1 }

/-- Attach the finally block to a body result: a fresh driver of this call
is torn down once and returned together with the body result and logs. -/
def withTeardown (q : QuitOutcome) (res : SelResult) (logs : List (String × String)) :
    SelResult × Option DriverState × List (String × String) :=
  let p := driverTeardown q { quitCalls := 0, quitPatched := false }
  (res, some p.1, logs ++ p.2)

/-- Shallow embedding of retrieve_scihub_pdf_link_selenium. An empty DOI
raises ValueError before any browser exists; a browser-start failure leaves
driver as None so the finally block skips teardown; every other path runs
the body to its outcome and then the finally block exactly once. -/
def retrieve_scihub_pdf_link_selenium (env : SelEnv) (doi current_sci_hub_url : String) :
    SelResult × Option DriverState × List (String × String) :=
  if doi = "" then
    (.raiseValueError "DOI must be provided for Sci-Hub retrieval.", none,
      [("ERROR", "Selenium: DOI must be provided to retrieve from Sci-Hub.")])
  else
    match env.body with
    | .chromeRaises m =>
      (.raiseNotFound ("[Selenium] WebDriver error: " ++ m), none,
        [("CRITICAL_ERROR", "[Selenium] WebDriverException occurred: " ++ m)])
    | .notFoundText =>
      withTeardown env.quitOutcome
        (.raiseNotFound ("Sci-Hub does not have the document for DOI: " ++ doi))
        [("WARNING", "[Selenium] Sci-Hub page indicates document not found for DOI: " ++
          doi ++ " (via specific text check)")]
    | .pdfFound src =>
      let resolved := resolve_pdf_src current_sci_hub_url src
      withTeardown env.quitOutcome (.retOk resolved env.cookieResult)
        [("SUCCESS", "[Selenium] Successfully retrieved PDF link: " ++ resolved)]
    | .fallbackScanFound src =>
      let resolved := resolve_pdf_src current_sci_hub_url src
      withTeardown env.quitOutcome (.retOk resolved env.cookieResult)
        [("WARNING", "[Selenium] Timed out waiting for the pdf iframe or embed. Trying other methods."),
         ("SUCCESS", "[Selenium] Successfully retrieved PDF link: " ++ resolved)]
    | .noLink =>
      withTeardown env.quitOutcome
        (.raiseNotFound "[Selenium] PDF iframe/embed not found on Sci-Hub page.")
        [("ERROR", "[Selenium] Could not find PDF source via iframe/embed after all attempts.")]
    | .wdError m =>
      withTeardown env.quitOutcome (.raiseNotFound ("[Selenium] WebDriver error: " ++ m))
        [("CRITICAL_ERROR", "[Selenium] WebDriverException occurred: " ++ m)]
    | .otherError m =>
      withTeardown env.quitOutcome (.raiseNotFound ("[Selenium] Unexpected error: " ++ m))
        [("CRITICAL_ERROR", "[Selenium] An unexpected error occurred: " ++ m)]

/-! ## Retrieval Orchestrator: doi_to_pdf_downloader (src/main.py lines 446-616) -/

/-- The per-identifier summary dictionary. -/
structure RunResult where
  identifier_input : String
  resolved_doi : Option String
  paper_title : String
  status : String
  message : String
  openalex_api_url_queried : Option String
  direct_oa_pdf_url_tried : Option String
  scihub_page_url_tried : Option String
  final_pdf_source_url : Option String
  local_filepath : Option String
  deriving DecidableEq

def initial_summary (input_id : String) : RunResult :=
  { identifier_input := input_id, resolved_doi := none, paper_title := "Unknown_Paper",
    status := "INITIATED", message := "", openalex_api_url_queried := none,
    direct_oa_pdf_url_tried := none, scihub_page_url_tried := none,
    final_pdf_source_url := none, local_filepath := none }

/-- Summary state plus the chronological list of every value assigned to the
status field, the initial value included. -/
structure LS where
  r : RunResult
  trace : List String
  deriving DecidableEq

def setStatus (s : LS) (v : String) : LS :=
  { r := { s.r with status := v }, trace := s.trace ++ [v] }

def appendMessage (s : LS) (m : String) : LS :=
  { s with r := { s.r with
      message := if s.r.message = "" then m else s.r.message ++ " | " ++ m } }

def summarySeverities : List String :=
  ["SUCCESS", "FAILURE", "ERROR", "CRITICAL_ERROR", "WARNING"]

/-- The nested helper at lines 473-482: for the listed severities the summary
status is set to the severity string unless it is already SUCCESS, and the
message is appended; other severities leave the summary untouched. -/
def logUpdate (s : LS) (severity msg : String) : LS :=
  if summarySeverities.contains severity then
    let s1 := if s.r.status = "SUCCESS" then s else setStatus s severity
    appendMessage s1 msg
  else s

/-- The effect on the summary of a sequence of log_func calls made by a
callee that received _log (line 541): each call runs the helper above in
order. -/
def applyLogs (s : LS) (logs : List (String × String)) : LS :=
  logs.foldl (fun s p => logUpdate s p.1 p.2) s

/-- Plain field assignments on the summary dictionary, named so that their
effect on the status trace (none) is a definitional fact. -/
def putResolvedDoi (s : LS) (v : Option String) : LS :=
  { s with r := { s.r with resolved_doi := v } }

def putPaperTitle (s : LS) (v : String) : LS :=
  { s with r := { s.r with paper_title := v } }

def putMetaFields (s : LS) (fdoi : Option String) (title : String)
    (api : String) (purl : Option String) : LS :=
  { s with r := { s.r with
    resolved_doi := fdoi,
    paper_title := title,
    openalex_api_url_queried := some api,
    direct_oa_pdf_url_tried := purl } }

def putScihubPage (s : LS) (v : String) : LS :=
  { s with r := { s.r with scihub_page_url_tried := some v } }

def putFinalSource (s : LS) (v : Option String) : LS :=
  { s with r := { s.r with final_pdf_source_url := v } }

def putLocalFilepath (s : LS) (v : Option String) : LS :=
  { s with r := { s.r with local_filepath := v } }

def putMessage (s : LS) (v : String) : LS :=
  { s with r := { s.r with message := v } }

/-- Outcome of get_paper_metadata as seen by the orchestrator: a record, a
raised NotFoundError or ValueError, or a fault of a kind the orchestrator
does not catch (e.g. a JSON decoding error). -/
inductive MetaOutcome where
  | ok (final_doi : Option String) (title : String) (pdf_url : Option String) (api_url : String)
  | notFound (msg : String)
  | valueError (msg : String)
  | raised
  deriving DecidableEq

/-- The external world for one orchestrator call. The Selenium retrieval is
the embedded retrieve_scihub_pdf_link_selenium driven by selEnv; selRaises
models a fault of the call itself outside its try block (e.g. in
uc.ChromeOptions()), which only the orchestrator's except Exception
handler catches. -/
structure Env where
  metaResult : MetaOutcome
  directHTTP : HTTPResult
  selRaises : Option String
  selEnv : SelEnv
  scihubHTTP : HTTPResult
  dirExists : Bool
  mkdirOk : Bool
  writeOk : Bool
  deriving DecidableEq

/-- The orchestrator's parameters (the purely I/O parameters auto_open_pdf,
log_file_path and summary_file_path do not touch the summary state and are
omitted). -/
structure Args where
  identifier_doi : Option String
  identifier_name : Option String
  identifier_url : Option String
  output_dir : String
  is_batch_mode : Bool
  scihub_retrieval_method : String
  deriving DecidableEq

/-- How one orchestrator call ends: a normal return of the summary, a
sys.exit(1) with the summary state at that moment, or a propagated
exception. The status-assignment trace accompanies the summary. -/
inductive RunOutcome where
  | returned (r : RunResult) (trace : List String)
  | exited (r : RunResult) (trace : List String)
  | raised
  deriving DecidableEq

def SCI_HUB_URL : String := "https://sci-hub.mksa.top/"

/-- The Sci-Hub page URL built for a DOI (line 536). -/
def scihub_page_url (doi : String) : String :=
  pyRstripChars SCI_HUB_URL ['/'] ++ "/" ++ doi

/-- sanitize_filename (src/main.py lines 27-56). -/
def sanitize_filename (title : String) : String :=
  let t := if title = "" then "Unknown_Paper_Title" else title
  let t := pyReplaceChar t ' ' '_'
  let invalid : List Char :=
    ['<', '>', ':', '"', '/', '\\', '|', '?', '*'] ++ (List.range 32).map Char.ofNat
  let t := String.mk (t.toList.filter (fun c => !(invalid.contains c)))
  let t := String.mk (t.toList.take 200)
  let t := pyRstripChars t ['.', ' ']
  let t := if t = "" then "Sanitized_Paper_Title" else t
  t ++ ".pdf"

/-- Result of stage 1: either the summary of an early return or exit, or the
state carried into the fallback stage. -/
inductive Stage1Out where
  | proceed (s : LS) (final_doi : Option String) (paper_title : String)
      (pdf_content : Option (List Nat)) (src : Option String)
  | finish (o : RunOutcome)
  deriving DecidableEq

/-- Stage 1 (lines 493-532): metadata retrieval and the direct open-access
download attempt. A NotFoundError from the direct download is caught by the
inner handler; an uncaught fault there, or a fault from get_paper_metadata
other than NotFoundError and ValueError, propagates. -/
def stage1 (env : Env) (a : Args) (s : LS) : Stage1Out :=
  match env.metaResult with
  | .raised => .finish .raised
  | .valueError m =>
    let s := logUpdate s "ERROR" ("Input error for metadata retrieval: " ++ m)
    let s := setStatus s "FAILURE_INPUT_ERROR"
    if a.is_batch_mode then .finish (.returned s.r s.trace) else .finish (.exited s.r s.trace)
  | .notFound m =>
    let s := logUpdate s "ERROR" ("Error fetching metadata from OpenAlex: " ++ m ++ ".")
    let s := setStatus s "FAILURE_OPENALEX_METADATA"
    if truthyS a.identifier_doi then
      let d := a.identifier_doi.getD ""
      let s : LS := putResolvedDoi s (some d)
      let t := pyReplaceChar (pyReplaceChar d '/' '_') '.' '_'
      let s : LS := putPaperTitle s t
      let s := logUpdate s "INFO" "Will attempt Sci-Hub using the provided DOI."
      .proceed s (some d) t none none
    else
      let s := logUpdate s "ERROR" "Could not obtain DOI from OpenAlex to attempt Sci-Hub download."
      if a.is_batch_mode then .finish (.returned s.r s.trace) else .finish (.exited s.r s.trace)
  | .ok fdoi title purl api_url =>
    let s : LS := putMetaFields s fdoi title api_url purl
    if truthyS purl then
      let u := purl.getD ""
      let s := logUpdate s "INFO" ("Attempting direct download from OpenAlex URL: " ++ u)
      match download_pdf_content u env.directHTTP with
      | .ok bytes =>
        let s := logUpdate s "SUCCESS" "Successfully downloaded PDF from OpenAlex source."
        let s := setStatus s "SUCCESS"
        .proceed s fdoi title (some bytes) (some u)
      | .nfe m =>
        let s := logUpdate s "WARNING" ("Direct download from OpenAlex URL failed: " ++ m ++
          ". Will try Sci-Hub if DOI is available.")
        let s := setStatus s "FAILURE_DIRECT_DOWNLOAD"
        .proceed s fdoi title none none
      | .raised _ => .finish .raised
    else
      let s := logUpdate s "INFO" "No direct PDF URL found via OpenAlex."
      let s := setStatus s "INFO_NO_DIRECT_OA_URL"
      .proceed s fdoi title none none

/-- The except NotFoundError handler of stage 2 (lines 556-561): the status
is assigned first, from the message's content, then the ERROR log runs. -/
def scihubNotFoundHandler (s : LS) (m : String) : LS :=
  let s :=
    if strContains m "Sci-Hub does not have the document" then
      setStatus s "FAILURE_SCIHUB_NOT_FOUND"
    else setStatus s "FAILURE_SCIHUB_DOWNLOAD_ERROR"
  logUpdate s "ERROR" ("Sci-Hub download failed: " ++ m)

/-- The no-URL branch of stage 2 (lines 552-555). -/
def scihubNoUrlHandler (s : LS) : LS :=
  let s := logUpdate s "ERROR" "Sci-Hub retrieval function did not return a PDF URL."
  if s.r.status = "FAILURE_SCIHUB_NOT_FOUND" then s else setStatus s "FAILURE_SCIHUB_NO_URL"

/-- The except Exception handler of stage 2 (lines 565-567). -/
def scihubUnexpectedHandler (s : LS) (m : String) : LS :=
  let s := logUpdate s "CRITICAL_ERROR"
    ("An unexpected error occurred during Sci-Hub Selenium retrieval: " ++ m)
  setStatus s "FAILURE_SCIHUB_UNEXPECTED_ERROR"

/-- Stage 2 (lines 534-571): the Sci-Hub fallback. The Selenium retrieval
is the embedded function, called with the DOI, SCI_HUB_URL and the _log
callback: the log entries it emits are applied to the summary in order
before the orchestrator handles the returned link or the raised error.
Every fault inside the try block is caught by one of the handlers; the
elif records the missing DOI. Returns the updated state, content and
source URL. -/
def stage2 (env : Env) (a : Args) (s : LS) (final_doi : Option String)
    (pdf_content : Option (List Nat)) (src : Option String) :
    LS × Option (List Nat) × Option String :=
  if !(truthyBytes pdf_content) && truthyS final_doi then
    let d := final_doi.getD ""
    let page := scihub_page_url d
    let s : LS := putScihubPage s page
    let s := logUpdate s "INFO" ("Attempting Sci-Hub fallback for DOI: " ++ d ++
      " using " ++ a.scihub_retrieval_method ++ " method.")
    if a.scihub_retrieval_method = "selenium" then
      match env.selRaises with
      | some m => (scihubUnexpectedHandler s m, pdf_content, src)
      | none =>
        let call := retrieve_scihub_pdf_link_selenium env.selEnv d SCI_HUB_URL
        let s := applyLogs s call.2.2
        match call.1 with
        | .retOk u _cookies =>
          if u = "" then (scihubNoUrlHandler s, pdf_content, src)
          else
            let s := logUpdate s "INFO" ("Found Sci-Hub PDF URL: " ++ u)
            match download_pdf_content u env.scihubHTTP with
            | .ok bytes =>
              let s := logUpdate s "SUCCESS" "Successfully downloaded PDF from Sci-Hub."
              let s := setStatus s "SUCCESS"
              (s, some bytes, some u)
            | .nfe m => (scihubNotFoundHandler s m, pdf_content, src)
            | .raised m => (scihubUnexpectedHandler s m, pdf_content, src)
        | .raiseNotFound m => (scihubNotFoundHandler s m, pdf_content, src)
        | .raiseValueError m =>
          let s := logUpdate s "ERROR"
            ("Error with Sci-Hub retrieval input (e.g. invalid DOI): " ++ m)
          (setStatus s "FAILURE_SCIHUB_INPUT_ERROR", pdf_content, src)
    else
      let s := logUpdate s "WARNING"
        "Requests-based Sci-Hub retrieval selected but not fully implemented for PDF download."
      (scihubNotFoundHandler s "Requests-based Sci-Hub method not fully implemented for PDF download.",
        pdf_content, src)
  else if !(truthyBytes pdf_content) && !(truthyS final_doi) then
    let s := logUpdate s "WARNING"
      "No PDF downloaded from OpenAlex and no DOI available for Sci-Hub attempt."
    let s :=
      if (["FAILURE_OPENALEX_METADATA", "FAILURE_INPUT_ERROR"].contains s.r.status) then s
      else setStatus s "FAILURE_NO_DOI_FOR_SCIHUB"
    (s, pdf_content, src)
  else (s, pdf_content, src)

/-- The output-directory handling of stage 3 (lines 578-584): the state
after the existence check or creation attempt, and the directory actually
used. -/
def stage3Dir (env : Env) (a : Args) (s : LS) : LS × String :=
  if env.dirExists then (s, a.output_dir)
  else if env.mkdirOk then
    (logUpdate s "INFO" ("Created output directory: " ++ a.output_dir), a.output_dir)
  else
    (logUpdate s "ERROR" ("Error creating output directory " ++ a.output_dir ++
      ": OSError. Saving to current directory instead."), ".")

/-- The save attempt of stage 3 (lines 589-602). -/
def stage3Save (env : Env) (a : Args) (s : LS) (output_filepath : String) : RunOutcome :=
  if env.writeOk then
    let s := logUpdate s "SUCCESS" ("PDF successfully saved to: " ++ output_filepath)
    let s := setStatus s "SUCCESS"
    let s : LS := putMessage s ("PDF successfully saved to: " ++ output_filepath)
    .returned s.r s.trace
  else
    let s := logUpdate s "ERROR" ("Error saving PDF to " ++ output_filepath ++ ": IOError")
    let s := setStatus s "FAILURE_SAVE_PDF"
    let s : LS := putLocalFilepath s none
    if a.is_batch_mode then .returned s.r s.trace else .exited s.r s.trace

/-- The no-content ending of stage 3 (lines 603-607). -/
def stage3Fail (a : Args) (s : LS) : RunOutcome :=
  let s :=
    if (["SUCCESS", "FAILURE_OPENALEX_METADATA", "FAILURE_INPUT_ERROR",
        "FAILURE_SCIHUB_NOT_FOUND", "FAILURE_NO_DOI_FOR_SCIHUB"].contains s.r.status) then s
    else setStatus s "FAILURE_NO_PDF_CONTENT"
  let s := logUpdate s "FAILURE"
    ("Ultimately failed to download PDF for identifier: " ++ s.r.identifier_input ++ ".")
  if a.is_batch_mode then .returned s.r s.trace else .exited s.r s.trace

/-- Stage 3 (lines 575-616): saving the content, or recording the final
failure. In single-item mode a failure ends in sys.exit(1). -/
def stage3 (env : Env) (a : Args) (s : LS) (paper_title : String)
    (pdf_content : Option (List Nat)) : RunOutcome :=
  if truthyBytes pdf_content then
    let filename := sanitize_filename paper_title
    let sd := stage3Dir env a s
    let output_filepath := pyPathJoin sd.2 filename
    stage3Save env a (putLocalFilepath sd.1 (some output_filepath)) output_filepath
  else stage3Fail a s

/-- Shallow embedding of doi_to_pdf_downloader: the three stages in order,
with final_pdf_source_url recorded between stages 2 and 3 (line 573). -/
def doi_to_pdf_downloader (env : Env) (a : Args) : RunOutcome :=
  let input_id := pyOrS a.identifier_doi (pyOrS a.identifier_name
    (pyOrS a.identifier_url "Unknown Identifier"))
  let s0 : LS := { r := initial_summary input_id, trace := ["INITIATED"] }
  let s1 := logUpdate s0 "INFO" ("Starting process for: " ++ input_id)
  match stage1 env a s1 with
  | .finish o => o
  | .proceed s fdoi title pc src =>
    let out := stage2 env a s fdoi pc src
    let s2 : LS := putFinalSource out.1 out.2.2
    stage3 env a s2 title out.2.1

def RunOutcome.summaryOf : RunOutcome → Option RunResult
  | .returned r _ => some r
  | .exited r _ => some r
  | .raised => none

def RunOutcome.isReturned : RunOutcome → Bool
  | .returned _ _ => true
  | _ => false

def RunOutcome.traceOf : RunOutcome → List String
  | .returned _ t => t
  | .exited _ t => t
  | .raised => []

/-- The strict non-regression checker of the spec: after a SUCCESS entry,
every later assigned status value is SUCCESS again. -/
def statusNeverLeavesSuccess : List String → Bool
  | [] => true
  | v :: rest =>
    if v = "SUCCESS" then rest.all (fun x => x = "SUCCESS")
    else statusNeverLeavesSuccess rest

/-- The status values the orchestrator writes by direct assignment to the
summary dictionary on a path where the status may already be SUCCESS:
lines 550/596 (SUCCESS), 554 (FAILURE_SCIHUB_NO_URL), 558/560
(FAILURE_SCIHUB_NOT_FOUND / FAILURE_SCIHUB_DOWNLOAD_ERROR), 567
(FAILURE_SCIHUB_UNEXPECTED_ERROR) and 600 (FAILURE_SAVE_PDF). The
logging helper's severity strings FAILURE, ERROR, CRITICAL_ERROR and
WARNING are not among them. -/
def directOverwrites : List String :=
  ["SUCCESS", "FAILURE_SAVE_PDF", "FAILURE_SCIHUB_NOT_FOUND",
   "FAILURE_SCIHUB_DOWNLOAD_ERROR", "FAILURE_SCIHUB_NO_URL",
   "FAILURE_SCIHUB_UNEXPECTED_ERROR"]

/-- The amended checker: every status entry assigned immediately after a
SUCCESS entry is one of the direct assignments above, so a SUCCESS status
is only ever replaced by a direct assignment, never by a logged
severity. -/
def successStepOK : List String → Bool
  | [] => true
  | [_] => true
  | a :: b :: rest =>
    (!(a == "SUCCESS") || directOverwrites.contains b) && successStepOK (b :: rest)

def RunOutcome.stepTraceOK : RunOutcome → Bool
  | .returned _ t => successStepOK t
  | .exited _ t => successStepOK t
  | .raised => true

def RunOutcome.strictTraceOK : RunOutcome → Bool
  | .returned _ t => statusNeverLeavesSuccess t
  | .exited _ t => statusNeverLeavesSuccess t
  | .raised => true

/-- The last entry of an assignment history. -/
def lastStatus : List String → Option String
  | [] => none
  | [v] => some v
  | _ :: b :: rest => lastStatus (b :: rest)

/-- The state invariant behind the amended checker: the assignment history
satisfies the step rule and ends with the current status value. -/
def LSok (s : LS) : Prop :=
  successStepOK s.trace = true ∧ lastStatus s.trace = some s.r.status

/-! ## Batch Runner: main (src/main.py lines 702-746) -/

/-- The identifier list read from the input file (line 712): each line is
stripped, blank lines are dropped. -/
def batch_identifiers (fileLines : List String) : List String :=
  (fileLines.map pyStripWS).filter (fun l => l ≠ "")

/-- The per-item orchestrator arguments built by the batch loop
(lines 722-732): every identifier goes into the DOI slot. -/
def batch_args (fileLines : List String) (output_dir method : String) : List Args :=
  (batch_identifiers fileLines).map (fun s =>
    { identifier_doi := some s, identifier_name := none, identifier_url := none,
      output_dir := output_dir, is_batch_mode := true, scihub_retrieval_method := method })

/-! ## Helper lemmas -/

@[simp] theorem truthyS_none : truthyS none = false := rfl

@[simp] theorem truthyBytes_none : truthyBytes none = false := rfl

theorem download_ok_ne_nil (u : String) (r : HTTPResult) (b : List Nat)
    (h : download_pdf_content u r = .ok b) : b ≠ [] := by
  cases r with
  | requestError m => simp [download_pdf_content] at h
  | unexpected m => simp [download_pdf_content] at h
  | ok ct body =>
    simp only [download_pdf_content] at h
    split at h
    · split at h
      · simp at h
      · split at h
        · simp at h
        · rename_i hne
          simp only [DLResult.ok.injEq] at h
          subst h
          simpa using hne
    · split at h
      · simp at h
      · rename_i hne
        simp only [DLResult.ok.injEq] at h
        subst h
        simpa using hne

theorem download_not_raised (u : String) (r : HTTPResult)
    (h : ∀ m, r ≠ .unexpected m) : ∀ m, download_pdf_content u r ≠ .raised m := by
  intro m
  cases r with
  | requestError m2 => simp [download_pdf_content]
  | unexpected m2 => exact absurd rfl (h m2)
  | ok ct body =>
    simp only [download_pdf_content]
    split
    · split
      · simp
      · split <;> simp
    · split <;> simp

/-! ## C3 and C9: content validation in download_pdf_content -/

/-- C3: the Content Fetcher accepts a response whose declared content type is
recognized, or otherwise whose first kilobyte starts with the %PDF-
signature; any other body fails with the content-invalid NotFoundError, an
empty body always fails, a text/html response with a %PDF- body is
accepted, and an application/pdf response with an empty body is rejected. -/
theorem download_pdf_content_validation :
    (∀ url ct body, strContains (pyLower ct) "application/pdf" = false →
      strContains (pyLower ct) "octet-stream" = false →
      pdfSignature.isPrefixOf (body.take 1024) = false →
      download_pdf_content url (.ok ct body) =
        .nfe (content_invalid_msg (strip_fragment url) (pyLower ct))) ∧
    (∀ url ct body, pdfSignature.isPrefixOf (body.take 1024) = true →
      download_pdf_content url (.ok ct body) = .ok body) ∧
    (∀ url ct, (download_pdf_content url (.ok ct [])).isOk = false) ∧
    (download_pdf_content "https://x.example/p" (.ok "text/html" pdfHeadBytes) =
      .ok pdfHeadBytes) ∧
    (download_pdf_content "https://x.example/p" (.ok "application/pdf" []) =
      .nfe (empty_pdf_msg "https://x.example/p")) := by
  refine ⟨?_, ?_, ?_, by decide, by decide⟩
  · intro url ct body h1 h2 h3
    simp [download_pdf_content, h1, h2, h3]
  · intro url ct body h
    have hb : body ≠ [] := by
      intro hnil
      subst hnil
      simp [pdfSignature] at h
    have hbe : body.isEmpty = false := by
      simpa [List.isEmpty_iff] using hb
    simp only [download_pdf_content]
    split
    · simp [h, List.take_append_drop, hbe]
    · simp [hbe]
  · intro url ct
    simp only [download_pdf_content]
    split
    · simp [pdfSignature, List.isPrefixOf, DLResult.isOk]
    · simp [DLResult.isOk]

/-- Closed instances of the hypotheses of the C3 theorem: an HTML error page
served as text/html is rejected with the content-invalid error, a body with
the signature is accepted, and an empty body is never ok. -/
theorem download_pdf_content_validation_witness :
    download_pdf_content "u" (.ok "text/html" [60, 104, 116, 109, 108, 62]) =
      .nfe (content_invalid_msg (strip_fragment "u") (pyLower "text/html")) ∧
    download_pdf_content "u" (.ok "text/html" pdfHeadBytes) = .ok pdfHeadBytes ∧
    (download_pdf_content "u" (.ok "x" [])).isOk = false :=
  ⟨download_pdf_content_validation.1 "u" "text/html" [60, 104, 116, 109, 108, 62]
      (by decide) (by decide) (by decide),
   download_pdf_content_validation.2.1 "u" "text/html" pdfHeadBytes (by decide),
   download_pdf_content_validation.2.2.1 "u" "x"⟩

/-- C9: a declared content type containing application/pdf or octet-stream
makes the fetcher return any non-empty body as-is, with no signature
inspection. -/
theorem recognized_content_type_skips_signature :
    ∀ url ct body,
      (strContains (pyLower ct) "application/pdf" = true ∨
        strContains (pyLower ct) "octet-stream" = true) →
      body ≠ [] →
      download_pdf_content url (.ok ct body) = .ok body := by
  intro url ct body h hb
  simp only [download_pdf_content]
  rcases h with h | h <;>
    · rw [h]
      simp [List.isEmpty_iff, hb]

/-- Closed instance of the C9 theorem: an HTML body served as
application/pdf is returned as a valid document. -/
theorem recognized_content_type_skips_signature_witness :
    download_pdf_content "u" (.ok "application/pdf" [60, 104, 116, 109, 108, 62]) =
      .ok [60, 104, 116, 109, 108, 62] :=
  recognized_content_type_skips_signature "u" "application/pdf"
    [60, 104, 116, 109, 108, 62] (Or.inl (by decide)) (by decide)

/-! ## C4: candidate-URL selection priority -/

/-- C4 counterexample: a record with no open-access URL whose
best_oa_location carries a direct PDF URL but whose primary_location is
absent. The spec's priority rule selects the PDF URL; the code selects
nothing, because the second field sits behind a primary_location.is_oa
gate. -/
def c4Record : WorkMetadata where
  doi := some "10.1/x"
  display_name := some "T"
  open_access := none
  primary_location := none
  best_oa_location := some { pdf_url := some "https://host.example/paper.pdf", landing_page_url := none }

/-- C4 is falsified by c4Record: the first present field of the spec's
priority list is best_oa_location.pdf_url, yet the code selects nothing. -/
theorem candidate_url_priority_counterexample :
    select_pdf_url c4Record = none ∧
    spec_select_pdf_url c4Record = some "https://host.example/paper.pdf" :=
  ⟨rfl, rfl⟩

/-- C4 as amended: the selection equals the spec rule with the
primary_location.is_oa gate added before the second field, and the selected
value is always the oa_url field, the best_oa_location.pdf_url field or
nothing; no landing-page field is ever selected. -/
theorem candidate_url_priority_amended :
    ∀ m : WorkMetadata,
      select_pdf_url m = amended_select_pdf_url m ∧
      (select_pdf_url m = none ∨
        (∃ oa, m.open_access = some oa ∧ select_pdf_url m = oa.oa_url) ∨
        (∃ b, m.best_oa_location = some b ∧ select_pdf_url m = b.pdf_url)) := by
  intro m
  obtain ⟨d, dn, oa, pl, bl⟩ := m
  constructor
  · cases oa <;> cases pl <;> cases bl <;>
      simp only [select_pdf_url, amended_select_pdf_url] <;>
      split <;> simp_all <;> split <;> simp_all <;> split <;> simp_all
  · cases oa with
    | none =>
      cases pl with
      | none => exact Or.inl (by simp [select_pdf_url])
      | some pl =>
        cases bl with
        | none => exact Or.inl (by simp [select_pdf_url])
        | some b =>
          by_cases ho : pl.is_oa = true
          · by_cases hp : truthyS b.pdf_url = true
            · exact Or.inr (Or.inr ⟨b, rfl, by simp [select_pdf_url, ho, hp]⟩)
            · exact Or.inl (by simp [select_pdf_url, ho, hp])
          · exact Or.inl (by simp [select_pdf_url, ho])
    | some o =>
      by_cases hoa : truthyS o.oa_url = true
      · exact Or.inr (Or.inl ⟨o, rfl, by simp [select_pdf_url, hoa]⟩)
      · have hfall : ∀ z : Option String, z = o.oa_url → Or (z = none)
            (Or (∃ oa, some o = some oa ∧ z = oa.oa_url)
              (∃ b, bl = some b ∧ z = b.pdf_url)) := by
          intro z hz
          exact Or.inr (Or.inl ⟨o, rfl, hz⟩)
        cases pl with
        | none => exact hfall _ (by simp [select_pdf_url, hoa])
        | some pl =>
          cases bl with
          | none => exact hfall _ (by simp [select_pdf_url, hoa])
          | some b =>
            by_cases ho : pl.is_oa = true
            · by_cases hp : truthyS b.pdf_url = true
              · exact Or.inr (Or.inr ⟨b, rfl, by simp [select_pdf_url, hoa, ho, hp]⟩)
              · exact hfall _ (by simp [select_pdf_url, hoa, ho, hp])
            · exact hfall _ (by simp [select_pdf_url, hoa, ho])

/-! ## C7: arXiv abstract-URL correction -/

/-- C7: an arXiv abstract URL is rewritten deterministically to the direct
PDF URL built from the extracted identifier; the concrete round trip holds;
and when no identifier can be extracted the URL is left unchanged. -/
theorem arxiv_abs_fix_spec :
    (arxiv_abs_fix "https://arxiv.org/abs/1234.5678" = "https://arxiv.org/pdf/1234.5678.pdf") ∧
    (∀ url, reSearchArxiv url.toList = none → arxiv_abs_fix url = url) ∧
    (∀ url arxiv_id, strContains url "arxiv.org/abs/" = true →
      reSearchArxiv url.toList = some arxiv_id →
      arxiv_abs_fix url = "https://arxiv.org/pdf/" ++ arxiv_id ++ ".pdf") := by
  refine ⟨by decide, ?_, ?_⟩
  · intro url h
    simp only [arxiv_abs_fix, h]
    split <;> rfl
  · intro url arxiv_id hc h
    have h2 : reSearchArxiv url.data = some arxiv_id := h
    simp [arxiv_abs_fix, hc, h2]

/-- Closed instances of the C7 theorem's hypotheses: a truncated abstract
URL with no extractable identifier is unchanged, and a versioned arXiv
identifier is rewritten. -/
theorem arxiv_abs_fix_spec_witness :
    arxiv_abs_fix "https://arxiv.org/abs/" = "https://arxiv.org/abs/" ∧
    arxiv_abs_fix "https://arxiv.org/abs/2101.00001v2" =
      "https://arxiv.org/pdf/2101.00001v2.pdf" :=
  ⟨arxiv_abs_fix_spec.2.1 "https://arxiv.org/abs/" (by decide),
   arxiv_abs_fix_spec.2.2 "https://arxiv.org/abs/2101.00001v2" "2101.00001v2"
     (by decide) (by decide)⟩

/-! ## C10: batch lines feed the DOI slot -/

/-- C10: in batch mode every stripped non-blank line of the input file is
passed to the orchestrator in the DOI slot, never as a title or URL, and
everything passed came from such a line. -/
theorem batch_lines_passed_as_doi :
    ∀ fileLines output_dir method,
      (∀ c ∈ batch_args fileLines output_dir method,
        c.identifier_name = none ∧ c.identifier_url = none ∧
        ∃ s ∈ batch_identifiers fileLines, c.identifier_doi = some s) ∧
      (∀ line ∈ fileLines, pyStripWS line ≠ "" →
        ({ identifier_doi := some (pyStripWS line), identifier_name := none,
           identifier_url := none, output_dir := output_dir, is_batch_mode := true,
           scihub_retrieval_method := method } : Args) ∈
          batch_args fileLines output_dir method) := by
  intro fileLines output_dir method
  constructor
  · intro c hc
    simp only [batch_args, List.mem_map] at hc
    obtain ⟨s, hs, rfl⟩ := hc
    exact ⟨rfl, rfl, s, hs, rfl⟩
  · intro line hline hne
    simp only [batch_args, List.mem_map]
    refine ⟨pyStripWS line, ?_, rfl⟩
    simp only [batch_identifiers, List.mem_filter, List.mem_map]
    exact ⟨⟨line, hline, rfl⟩, by simpa using hne⟩

/-- Closed instance of the C10 theorem on a concrete file: the stripped
line goes into the DOI slot of a batch argument record. -/
theorem batch_lines_passed_as_doi_witness :
    ({ identifier_doi := some "10.1/x", identifier_name := none,
       identifier_url := none, output_dir := ".", is_batch_mode := true,
       scihub_retrieval_method := "selenium" } : Args) ∈
      batch_args ["  10.1/x  ", "", "y"] "." "selenium" := by
  have h := (batch_lines_passed_as_doi ["  10.1/x  ", "", "y"] "." "selenium").2
    "  10.1/x  " (by simp) (by decide)
  simpa using h

/-! ## C6: browser-session teardown discipline -/

/-- C6: on every exit path of the extractor that created a browser session,
the session is released exactly once; the function's result does not depend
on the quit outcome (release failures are never escalated); a failing quit
is logged as a WARNING; and after a successful quit the patched handle
makes a further release call a no-op. -/
theorem selenium_teardown_discipline :
    ∀ (env : SelEnv) (doi base : String), doi ≠ "" →
      (∀ m, env.body ≠ .chromeRaises m) →
      ∃ d, (retrieve_scihub_pdf_link_selenium env doi base).2.1 = some d ∧
        d.quitCalls = 1 ∧
        (env.quitOutcome = .ok → d.quitPatched = true ∧ quitAgain d = d) ∧
        (∀ q, (retrieve_scihub_pdf_link_selenium { env with quitOutcome := q } doi base).1 =
          (retrieve_scihub_pdf_link_selenium env doi base).1) ∧
        (∀ m, env.quitOutcome = .osError m →
          ("WARNING", "[Selenium] OSError during explicit driver.quit(): " ++ m ++
            ". This might be a cleanup issue with the driver.") ∈
            (retrieve_scihub_pdf_link_selenium env doi base).2.2) := by
  intro env doi base hdoi hbody
  obtain ⟨body, q, ck⟩ := env
  cases body
  case chromeRaises m => exact absurd rfl (hbody m)
  all_goals
    refine ⟨(driverTeardown q { quitCalls := 0, quitPatched := false }).1,
      by simp [retrieve_scihub_pdf_link_selenium, hdoi, withTeardown],
      by cases q <;> rfl,
      by intro hq; subst hq; exact ⟨rfl, rfl⟩,
      by intro q2; simp [retrieve_scihub_pdf_link_selenium, hdoi, withTeardown],
      by intro m hm; subst hm;
         simp [retrieve_scihub_pdf_link_selenium, hdoi, withTeardown, driverTeardown]⟩

/-- Closed instance of the C6 theorem: a session whose quit raises OSError
is still released exactly once and the OSError is only a warning. -/
theorem selenium_teardown_discipline_witness :
    ∃ d, (retrieve_scihub_pdf_link_selenium
        { body := .pdfFound "//x/p.pdf", quitOutcome := .osError "boom", cookieResult := none }
        "10.1/x" "https://sci-hub.mksa.top/").2.1 = some d ∧
      d.quitCalls = 1 ∧
      ((QuitOutcome.osError "boom") = .ok → d.quitPatched = true ∧ quitAgain d = d) ∧
      (∀ q, (retrieve_scihub_pdf_link_selenium
          { body := .pdfFound "//x/p.pdf", quitOutcome := q, cookieResult := none }
          "10.1/x" "https://sci-hub.mksa.top/").1 =
        (retrieve_scihub_pdf_link_selenium
          { body := .pdfFound "//x/p.pdf", quitOutcome := .osError "boom", cookieResult := none }
          "10.1/x" "https://sci-hub.mksa.top/").1) ∧
      (∀ m, (QuitOutcome.osError "boom") = .osError m →
        ("WARNING", "[Selenium] OSError during explicit driver.quit(): " ++ m ++
          ". This might be a cleanup issue with the driver.") ∈
          (retrieve_scihub_pdf_link_selenium
            { body := .pdfFound "//x/p.pdf", quitOutcome := .osError "boom", cookieResult := none }
            "10.1/x" "https://sci-hub.mksa.top/").2.2) :=
  selenium_teardown_discipline
    { body := .pdfFound "//x/p.pdf", quitOutcome := .osError "boom", cookieResult := none }
    "10.1/x" "https://sci-hub.mksa.top/" (by decide)
    (by intro m h; exact SelBodyOutcome.noConfusion h)

/-! ## Helper lemmas for the orchestrator -/

@[simp] theorem setStatus_status (s : LS) (v : String) : (setStatus s v).r.status = v := rfl

@[simp] theorem setStatus_trace (s : LS) (v : String) :
    (setStatus s v).trace = s.trace ++ [v] := rfl

@[simp] theorem setStatus_resolved (s : LS) (v : String) :
    (setStatus s v).r.resolved_doi = s.r.resolved_doi := rfl

@[simp] theorem setStatus_title (s : LS) (v : String) :
    (setStatus s v).r.paper_title = s.r.paper_title := rfl

@[simp] theorem setStatus_scihub (s : LS) (v : String) :
    (setStatus s v).r.scihub_page_url_tried = s.r.scihub_page_url_tried := rfl

@[simp] theorem appendMessage_status (s : LS) (m : String) :
    (appendMessage s m).r.status = s.r.status := rfl

@[simp] theorem appendMessage_trace (s : LS) (m : String) :
    (appendMessage s m).trace = s.trace := rfl

@[simp] theorem appendMessage_resolved (s : LS) (m : String) :
    (appendMessage s m).r.resolved_doi = s.r.resolved_doi := rfl

@[simp] theorem appendMessage_title (s : LS) (m : String) :
    (appendMessage s m).r.paper_title = s.r.paper_title := rfl

@[simp] theorem appendMessage_scihub (s : LS) (m : String) :
    (appendMessage s m).r.scihub_page_url_tried = s.r.scihub_page_url_tried := rfl

@[simp] theorem putResolvedDoi_trace (s : LS) (v : Option String) :
    (putResolvedDoi s v).trace = s.trace := rfl

@[simp] theorem putResolvedDoi_status (s : LS) (v : Option String) :
    (putResolvedDoi s v).r.status = s.r.status := rfl

@[simp] theorem putResolvedDoi_field (s : LS) (v : Option String) :
    (putResolvedDoi s v).r.resolved_doi = v := rfl

@[simp] theorem putResolvedDoi_title (s : LS) (v : Option String) :
    (putResolvedDoi s v).r.paper_title = s.r.paper_title := rfl

@[simp] theorem putResolvedDoi_scihub (s : LS) (v : Option String) :
    (putResolvedDoi s v).r.scihub_page_url_tried = s.r.scihub_page_url_tried := rfl

@[simp] theorem putPaperTitle_trace (s : LS) (v : String) :
    (putPaperTitle s v).trace = s.trace := rfl

@[simp] theorem putPaperTitle_status (s : LS) (v : String) :
    (putPaperTitle s v).r.status = s.r.status := rfl

@[simp] theorem putPaperTitle_field (s : LS) (v : String) :
    (putPaperTitle s v).r.paper_title = v := rfl

@[simp] theorem putPaperTitle_resolved (s : LS) (v : String) :
    (putPaperTitle s v).r.resolved_doi = s.r.resolved_doi := rfl

@[simp] theorem putPaperTitle_scihub (s : LS) (v : String) :
    (putPaperTitle s v).r.scihub_page_url_tried = s.r.scihub_page_url_tried := rfl

@[simp] theorem putMetaFields_trace (s : LS) (a : Option String) (b : String)
    (c : String) (d : Option String) : (putMetaFields s a b c d).trace = s.trace := rfl

@[simp] theorem putMetaFields_status (s : LS) (a : Option String) (b : String)
    (c : String) (d : Option String) : (putMetaFields s a b c d).r.status = s.r.status := rfl

@[simp] theorem putMetaFields_resolved (s : LS) (a : Option String) (b : String)
    (c : String) (d : Option String) : (putMetaFields s a b c d).r.resolved_doi = a := rfl

@[simp] theorem putMetaFields_title (s : LS) (a : Option String) (b : String)
    (c : String) (d : Option String) : (putMetaFields s a b c d).r.paper_title = b := rfl

@[simp] theorem putMetaFields_scihub (s : LS) (a : Option String) (b : String)
    (c : String) (d : Option String) :
    (putMetaFields s a b c d).r.scihub_page_url_tried = s.r.scihub_page_url_tried := rfl

@[simp] theorem putScihubPage_trace (s : LS) (v : String) :
    (putScihubPage s v).trace = s.trace := rfl

@[simp] theorem putScihubPage_status (s : LS) (v : String) :
    (putScihubPage s v).r.status = s.r.status := rfl

@[simp] theorem putScihubPage_field (s : LS) (v : String) :
    (putScihubPage s v).r.scihub_page_url_tried = some v := rfl

@[simp] theorem putScihubPage_resolved (s : LS) (v : String) :
    (putScihubPage s v).r.resolved_doi = s.r.resolved_doi := rfl

@[simp] theorem putScihubPage_title (s : LS) (v : String) :
    (putScihubPage s v).r.paper_title = s.r.paper_title := rfl

@[simp] theorem putFinalSource_trace (s : LS) (v : Option String) :
    (putFinalSource s v).trace = s.trace := rfl

@[simp] theorem putFinalSource_status (s : LS) (v : Option String) :
    (putFinalSource s v).r.status = s.r.status := rfl

@[simp] theorem putFinalSource_resolved (s : LS) (v : Option String) :
    (putFinalSource s v).r.resolved_doi = s.r.resolved_doi := rfl

@[simp] theorem putFinalSource_title (s : LS) (v : Option String) :
    (putFinalSource s v).r.paper_title = s.r.paper_title := rfl

@[simp] theorem putFinalSource_scihub (s : LS) (v : Option String) :
    (putFinalSource s v).r.scihub_page_url_tried = s.r.scihub_page_url_tried := rfl

@[simp] theorem putLocalFilepath_trace (s : LS) (v : Option String) :
    (putLocalFilepath s v).trace = s.trace := rfl

@[simp] theorem putLocalFilepath_status (s : LS) (v : Option String) :
    (putLocalFilepath s v).r.status = s.r.status := rfl

@[simp] theorem putLocalFilepath_resolved (s : LS) (v : Option String) :
    (putLocalFilepath s v).r.resolved_doi = s.r.resolved_doi := rfl

@[simp] theorem putLocalFilepath_title (s : LS) (v : Option String) :
    (putLocalFilepath s v).r.paper_title = s.r.paper_title := rfl

@[simp] theorem putLocalFilepath_scihub (s : LS) (v : Option String) :
    (putLocalFilepath s v).r.scihub_page_url_tried = s.r.scihub_page_url_tried := rfl

@[simp] theorem putMessage_trace (s : LS) (v : String) :
    (putMessage s v).trace = s.trace := rfl

@[simp] theorem putMessage_status (s : LS) (v : String) :
    (putMessage s v).r.status = s.r.status := rfl

@[simp] theorem putMessage_resolved (s : LS) (v : String) :
    (putMessage s v).r.resolved_doi = s.r.resolved_doi := rfl

@[simp] theorem putMessage_title (s : LS) (v : String) :
    (putMessage s v).r.paper_title = s.r.paper_title := rfl

@[simp] theorem putMessage_scihub (s : LS) (v : String) :
    (putMessage s v).r.scihub_page_url_tried = s.r.scihub_page_url_tried := rfl

theorem logUpdate_info (s : LS) (m : String) : logUpdate s "INFO" m = s := rfl

theorem logUpdate_in_ne (s : LS) (sev m : String)
    (hsev : summarySeverities.contains sev = true) (hs : s.r.status ≠ "SUCCESS") :
    logUpdate s sev m = appendMessage (setStatus s sev) m := by
  unfold logUpdate
  rw [if_pos hsev, if_neg hs]

theorem logUpdate_success (s : LS) (sev m : String) (hs : s.r.status = "SUCCESS") :
    (logUpdate s sev m).r.status = "SUCCESS" ∧ (logUpdate s sev m).trace = s.trace := by
  unfold logUpdate
  split
  · simp [hs]
  · simp [hs]

@[simp] theorem logUpdate_resolved (s : LS) (sev m : String) :
    (logUpdate s sev m).r.resolved_doi = s.r.resolved_doi := by
  unfold logUpdate
  split
  · split <;> simp
  · rfl

@[simp] theorem logUpdate_title (s : LS) (sev m : String) :
    (logUpdate s sev m).r.paper_title = s.r.paper_title := by
  unfold logUpdate
  split
  · split <;> simp
  · rfl

@[simp] theorem logUpdate_scihub (s : LS) (sev m : String) :
    (logUpdate s sev m).r.scihub_page_url_tried = s.r.scihub_page_url_tried := by
  unfold logUpdate
  split
  · split <;> simp
  · rfl

theorem logUpdate_trace_cases (s : LS) (sev m : String) :
    (logUpdate s sev m).trace = s.trace ∨ (logUpdate s sev m).trace = s.trace ++ [sev] := by
  unfold logUpdate
  split
  · split
    · exact Or.inl (by simp)
    · exact Or.inr (by simp)
  · exact Or.inl rfl

theorem logUpdate_status_cases (s : LS) (sev m : String) :
    (logUpdate s sev m).r.status = s.r.status ∨ (logUpdate s sev m).r.status = sev := by
  unfold logUpdate
  split
  · split
    · exact Or.inl (by simp)
    · exact Or.inr (by simp)
  · exact Or.inl rfl

theorem truthyS_some_ne (d : String) (h : d ≠ "") : truthyS (some d) = true := by
  simp [truthyS, h]

theorem truthyBytes_some_ne (b : List Nat) (h : b ≠ []) : truthyBytes (some b) = true := by
  simp [truthyBytes, List.isEmpty_iff, h]
/-- Stage 2 is skipped whenever a document was already fetched. -/
theorem stage2_skip (env : Env) (a : Args) (s : LS) (fd : Option String)
    (pc : Option (List Nat)) (src : Option String) (h : truthyBytes pc = true) :
    stage2 env a s fd pc src = (s, pc, src) := by
  simp [stage2, h]

theorem trace_extend_logUpdate (s : LS) (sev m : String) :
    ∃ δ, (logUpdate s sev m).trace = s.trace ++ δ := by
  rcases logUpdate_trace_cases s sev m with h | h
  · exact ⟨[], by simp [h]⟩
  · exact ⟨[sev], h⟩

theorem trace_extend_trans {x y z : List String}
    (h1 : ∃ δ, y = x ++ δ) (h2 : ∃ δ, z = y ++ δ) : ∃ δ, z = x ++ δ := by
  obtain ⟨d1, rfl⟩ := h1
  obtain ⟨d2, rfl⟩ := h2
  exact ⟨d1 ++ d2, by simp⟩

theorem trace_extend_setStatus (s : LS) (v : String) :
    ∃ δ, (setStatus s v).trace = s.trace ++ δ := ⟨[v], rfl⟩

theorem applyLogs_nil (s : LS) : applyLogs s [] = s := rfl

theorem applyLogs_cons (s : LS) (p : String × String) (ps : List (String × String)) :
    applyLogs s (p :: ps) = applyLogs (logUpdate s p.1 p.2) ps := rfl

@[simp] theorem applyLogs_resolved (logs : List (String × String)) : ∀ s : LS,
    (applyLogs s logs).r.resolved_doi = s.r.resolved_doi := by
  induction logs with
  | nil => intro s; rfl
  | cons p ps ih =>
    intro s
    rw [applyLogs_cons, ih, logUpdate_resolved]

@[simp] theorem applyLogs_title (logs : List (String × String)) : ∀ s : LS,
    (applyLogs s logs).r.paper_title = s.r.paper_title := by
  induction logs with
  | nil => intro s; rfl
  | cons p ps ih =>
    intro s
    rw [applyLogs_cons, ih, logUpdate_title]

@[simp] theorem applyLogs_scihub (logs : List (String × String)) : ∀ s : LS,
    (applyLogs s logs).r.scihub_page_url_tried = s.r.scihub_page_url_tried := by
  induction logs with
  | nil => intro s; rfl
  | cons p ps ih =>
    intro s
    rw [applyLogs_cons, ih, logUpdate_scihub]

theorem trace_extend_applyLogs (logs : List (String × String)) : ∀ s : LS,
    ∃ δ, (applyLogs s logs).trace = s.trace ++ δ := by
  induction logs with
  | nil => intro s; exact ⟨[], by simp [applyLogs_nil]⟩
  | cons p ps ih =>
    intro s
    rw [applyLogs_cons]
    exact trace_extend_trans (trace_extend_logUpdate s p.1 p.2) (ih (logUpdate s p.1 p.2))

theorem initial_status_ne (x : String) :
    ({ r := initial_summary x, trace := ["INITIATED"] } : LS).r.status ≠ "SUCCESS" :=
  fun h => absurd h (by intro h2; simp [initial_summary] at h2)

theorem setStatus_status_ne (s : LS) (v w : String) (h : v ≠ w) :
    (setStatus s v).r.status ≠ w := by
  simpa using h

/-! ## C2: the Success non-regression rule -/

/-- C2 counterexample environment: the direct open-access download succeeds
(setting SUCCESS), then saving the file fails with IOError. -/
def c2Env : Env where
  metaResult := .ok (some "10.1/x") "My Paper" (some "https://a.example/b.pdf") "api"
  directHTTP := .ok "application/pdf" pdfHeadBytes
  selRaises := none
  selEnv := { body := .noLink, quitOutcome := .ok, cookieResult := none }
  scihubHTTP := .requestError "x"
  dirExists := true
  mkdirOk := true
  writeOk := false

def c2Args : Args where
  identifier_doi := some "10.1/x"
  identifier_name := none
  identifier_url := none
  output_dir := "."
  is_batch_mode := true
  scihub_retrieval_method := "selenium"

/-- C2 is falsified on the code: after a successful download sets the
status to SUCCESS, a failing save overwrites it with FAILURE_SAVE_PDF, so
the strict never-overwritten checker fails on the status trace. -/
theorem status_success_overwritten_counterexample :
    (doi_to_pdf_downloader c2Env c2Args).strictTraceOK = false ∧
    (doi_to_pdf_downloader c2Env c2Args).traceOf =
      ["INITIATED", "SUCCESS", "SUCCESS", "FAILURE_SAVE_PDF"] := by
  constructor <;> decide

/-- The Sci-Hub retrieval's own SUCCESS log (line 306) can also be
overwritten: the retrieval finds a link and logs SUCCESS, the PDF download
then fails, and the except handler assigns FAILURE_SCIHUB_DOWNLOAD_ERROR
over the SUCCESS the log had set. -/
def c2SelEnv : Env where
  metaResult := .ok (some "10.1/x") "My Paper" none "api"
  directHTTP := .requestError "unused"
  selRaises := none
  selEnv := { body := .pdfFound "https://dl.example/p.pdf", quitOutcome := .ok,
              cookieResult := none }
  scihubHTTP := .requestError "network down"
  dirExists := true
  mkdirOk := true
  writeOk := true

theorem scihub_success_log_overwritten_demo :
    (doi_to_pdf_downloader c2SelEnv c2Args).traceOf =
      ["INITIATED", "INFO_NO_DIRECT_OA_URL", "SUCCESS",
       "FAILURE_SCIHUB_DOWNLOAD_ERROR", "ERROR", "FAILURE_NO_PDF_CONTENT", "FAILURE"] ∧
    (doi_to_pdf_downloader c2SelEnv c2Args).strictTraceOK = false := by
  constructor <;> decide

/-- Line 573 records the URL a successful direct download actually came
from in final_pdf_source_url. -/
theorem direct_success_records_source_demo :
    (doi_to_pdf_downloader c2Env c2Args).summaryOf.map RunResult.final_pdf_source_url
      = some (some "https://a.example/b.pdf") := by decide

theorem lastStatus_concat : ∀ (l : List String) (v : String),
    lastStatus (l ++ [v]) = some v := by
  intro l
  induction l with
  | nil => intro v; rfl
  | cons a tail ih =>
    intro v
    cases tail with
    | nil => rfl
    | cons b tail2 =>
      show lastStatus (a :: ((b :: tail2) ++ [v])) = some v
      rw [show (a :: ((b :: tail2) ++ [v])) = a :: b :: (tail2 ++ [v]) from rfl]
      show lastStatus (b :: (tail2 ++ [v])) = some v
      exact ih v

/-- Appending an entry keeps the step rule when the appended value is
permitted after the current last entry. -/
theorem successStepOK_append : ∀ (l : List String) (x v : String),
    successStepOK l = true → lastStatus l = some x →
    (x = "SUCCESS" → directOverwrites.contains v = true) →
    successStepOK (l ++ [v]) = true := by
  intro l
  induction l with
  | nil =>
    intro x v _ h2 _
    simp [lastStatus] at h2
  | cons a tail ih =>
    intro x v h1 h2 h3
    cases tail with
    | nil =>
      have hax : x = a := by
        have : some a = some x := h2
        exact (Option.some.injEq _ _ ▸ this).symm
      subst hax
      show successStepOK [x, v] = true
      by_cases hS : x = "SUCCESS"
      · simp [successStepOK]
        exact Or.inr (by simpa using h3 hS)
      · simp [successStepOK, hS]
    | cons b tail2 =>
      have h1' : ((!(a == "SUCCESS") || directOverwrites.contains b) = true) ∧
          successStepOK (b :: tail2) = true := by
        have h1b := h1
        simp only [successStepOK, Bool.and_eq_true] at h1b
        exact h1b
      have h2' : lastStatus (b :: tail2) = some x := h2
      have hrec := ih x v h1'.2 h2' h3
      show successStepOK (a :: b :: (tail2 ++ [v])) = true
      simp only [successStepOK, Bool.and_eq_true]
      exact ⟨h1'.1, hrec⟩

theorem LSok_of_eq {s t : LS} (h : LSok s) (htr : t.trace = s.trace)
    (hst : t.r.status = s.r.status) : LSok t := by
  obtain ⟨h1, h2⟩ := h
  refine ⟨?_, ?_⟩
  · rw [htr]
    exact h1
  · rw [htr, hst]
    exact h2

theorem LSok_of_computed (s : LS) (l : List String) (st : String)
    (htr : s.trace = l) (hst : s.r.status = st)
    (h1 : successStepOK l = true) (h2 : lastStatus l = some st) : LSok s := by
  refine ⟨?_, ?_⟩
  · rw [htr]
    exact h1
  · rw [htr, hst]
    exact h2

/-- A direct status assignment keeps the invariant when the assigned value
is permitted after a SUCCESS (or the current status is not SUCCESS). -/
theorem LSok_setStatus (s : LS) (v : String) (h : LSok s)
    (hv : s.r.status = "SUCCESS" → directOverwrites.contains v = true) :
    LSok (setStatus s v) := by
  obtain ⟨h1, h2⟩ := h
  refine ⟨?_, ?_⟩
  · rw [setStatus_trace]
    exact successStepOK_append s.trace s.r.status v h1 h2 hv
  · rw [setStatus_trace, setStatus_status]
    exact lastStatus_concat s.trace v

/-- The logging helper always keeps the invariant: it assigns the severity
only when the status is not SUCCESS, so it never puts an entry right after
a SUCCESS. -/
theorem LSok_logUpdate (s : LS) (sev m : String) (h : LSok s) :
    LSok (logUpdate s sev m) := by
  unfold logUpdate
  split
  · split
    · exact LSok_of_eq h (by simp) (by simp)
    · rename_i hS
      exact LSok_of_eq (LSok_setStatus s sev h (fun hEq => absurd hEq hS)) (by simp) (by simp)
  · exact h

/-- A sequence of log_func calls from a callee keeps the invariant. -/
theorem LSok_applyLogs (logs : List (String × String)) : ∀ s : LS, LSok s →
    LSok (applyLogs s logs) := by
  induction logs with
  | nil =>
    intro s h
    exact h
  | cons p ps ih =>
    intro s h
    rw [applyLogs_cons]
    exact ih _ (LSok_logUpdate _ _ _ h)

theorem LSok_notFoundHandler (s : LS) (m : String) (h : LSok s) :
    LSok (scihubNotFoundHandler s m) := by
  unfold scihubNotFoundHandler
  dsimp only
  split
  · exact LSok_logUpdate _ _ _ (LSok_setStatus _ _ h (fun _ => by decide))
  · exact LSok_logUpdate _ _ _ (LSok_setStatus _ _ h (fun _ => by decide))

theorem LSok_noUrlHandler (s : LS) (h : LSok s) : LSok (scihubNoUrlHandler s) := by
  unfold scihubNoUrlHandler
  dsimp only
  split
  · exact LSok_logUpdate _ _ _ h
  · exact LSok_setStatus _ _ (LSok_logUpdate _ _ _ h) (fun _ => by decide)

theorem LSok_unexpectedHandler (s : LS) (m : String) (h : LSok s) :
    LSok (scihubUnexpectedHandler s m) := by
  unfold scihubUnexpectedHandler
  dsimp only
  exact LSok_setStatus _ _ (LSok_logUpdate _ _ _ h) (fun _ => by decide)

/-- Stage 2 keeps the invariant when entered with no content and a
non-SUCCESS status: all its direct assignments are in the permitted set,
except FAILURE_SCIHUB_INPUT_ERROR and FAILURE_NO_DOI_FOR_SCIHUB, which
only run after an ERROR or WARNING log has moved the status off
SUCCESS. -/
theorem stage2_stepOK (env : Env) (a : Args) (s : LS) (fd : Option String)
    (pc : Option (List Nat)) (src : Option String)
    (hpc : truthyBytes pc = false) (h : LSok s) (hs : s.r.status ≠ "SUCCESS") :
    LSok (stage2 env a s fd pc src).1 := by
  obtain ⟨mr, dh, sr, se, shh, de, mk, wr⟩ := env
  by_cases hfd : truthyS fd = true
  · simp only [stage2, hpc, hfd, Bool.not_false, Bool.true_and, if_true, logUpdate_info]
    have h0 : LSok (putScihubPage s (scihub_page_url (fd.getD ""))) :=
      LSok_of_eq h (by simp) (by simp)
    have hs0 : (putScihubPage s (scihub_page_url (fd.getD ""))).r.status ≠ "SUCCESS" := by
      simpa using hs
    by_cases hm : a.scihub_retrieval_method = "selenium"
    · rw [if_pos hm]
      cases sr with
      | some m =>
        dsimp only
        exact LSok_unexpectedHandler _ _ h0
      | none =>
        dsimp only
        by_cases hdoi : (fd.getD "") = ""
        · simp only [retrieve_scihub_pdf_link_selenium]
          rw [if_pos hdoi]
          dsimp only [applyLogs, List.foldl]
          rw [logUpdate_in_ne _ _ _ (by decide) hs0]
          refine LSok_setStatus _ _ (LSok_logUpdate _ _ _ ?_) ?_
          · exact LSok_of_eq (LSok_setStatus _ "ERROR" h0 (fun hEq => absurd hEq hs0))
              (by simp) (by simp)
          · intro hEq
            exfalso
            rw [logUpdate_in_ne _ _ _ (by decide) (by simp)] at hEq
            simp at hEq
        · simp only [retrieve_scihub_pdf_link_selenium]
          rw [if_neg hdoi]
          cases hb : se.body with
          | chromeRaises m =>
            dsimp only
            exact LSok_notFoundHandler _ _ (LSok_applyLogs _ _ h0)
          | notFoundText =>
            dsimp only [withTeardown]
            exact LSok_notFoundHandler _ _ (LSok_applyLogs _ _ h0)
          | pdfFound src2 =>
            dsimp only [withTeardown]
            by_cases hu : resolve_pdf_src SCI_HUB_URL src2 = ""
            · rw [if_pos hu]
              exact LSok_noUrlHandler _ (LSok_applyLogs _ _ h0)
            · rw [if_neg hu]
              cases hdl : download_pdf_content (resolve_pdf_src SCI_HUB_URL src2) shh with
              | ok bytes =>
                dsimp only
                exact LSok_setStatus _ _ (LSok_logUpdate _ _ _ (LSok_applyLogs _ _ h0))
                  (fun _ => by decide)
              | nfe m =>
                dsimp only
                exact LSok_notFoundHandler _ _ (LSok_applyLogs _ _ h0)
              | raised m =>
                dsimp only
                exact LSok_unexpectedHandler _ _ (LSok_applyLogs _ _ h0)
          | fallbackScanFound src2 =>
            dsimp only [withTeardown]
            by_cases hu : resolve_pdf_src SCI_HUB_URL src2 = ""
            · rw [if_pos hu]
              exact LSok_noUrlHandler _ (LSok_applyLogs _ _ h0)
            · rw [if_neg hu]
              cases hdl : download_pdf_content (resolve_pdf_src SCI_HUB_URL src2) shh with
              | ok bytes =>
                dsimp only
                exact LSok_setStatus _ _ (LSok_logUpdate _ _ _ (LSok_applyLogs _ _ h0))
                  (fun _ => by decide)
              | nfe m =>
                dsimp only
                exact LSok_notFoundHandler _ _ (LSok_applyLogs _ _ h0)
              | raised m =>
                dsimp only
                exact LSok_unexpectedHandler _ _ (LSok_applyLogs _ _ h0)
          | noLink =>
            dsimp only [withTeardown]
            exact LSok_notFoundHandler _ _ (LSok_applyLogs _ _ h0)
          | wdError m =>
            dsimp only [withTeardown]
            exact LSok_notFoundHandler _ _ (LSok_applyLogs _ _ h0)
          | otherError m =>
            dsimp only [withTeardown]
            exact LSok_notFoundHandler _ _ (LSok_applyLogs _ _ h0)
    · rw [if_neg hm]
      exact LSok_notFoundHandler _ _ (LSok_logUpdate _ _ _ h0)
  · have hfd2 : truthyS fd = false := by
      cases h2 : truthyS fd
      · rfl
      · exact absurd h2 hfd
    simp only [stage2, hpc, hfd2, Bool.not_false, Bool.true_and, Bool.and_false,
      Bool.false_eq_true, if_false, eq_self_iff_true, if_true]
    rw [logUpdate_in_ne _ _ _ (by decide) hs]
    split
    · exact LSok_of_eq (LSok_setStatus _ "WARNING" h (fun hEq => absurd hEq hs))
        (by simp) (by simp)
    · refine LSok_setStatus _ _
        (LSok_of_eq (LSok_setStatus _ "WARNING" h (fun hEq => absurd hEq hs))
          (by simp) (by simp)) ?_
      intro hEq
      simp at hEq

/-- Stage 3 keeps the step rule on every outcome: the save path only
assigns SUCCESS or FAILURE_SAVE_PDF, both permitted after SUCCESS, and the
no-content path assigns FAILURE_NO_PDF_CONTENT and the FAILURE log only
when the status is not SUCCESS. -/
theorem stage3_stepOK (env : Env) (a : Args) (s : LS) (ti : String)
    (pc : Option (List Nat)) (h : LSok s) :
    (stage3 env a s ti pc).stepTraceOK = true := by
  unfold stage3
  split
  · have h1 : LSok (stage3Dir env a s).1 := by
      unfold stage3Dir
      split
      · exact h
      · split
        · rw [logUpdate_info]
          exact h
        · exact LSok_logUpdate _ _ _ h
    have h2 : LSok (putLocalFilepath (stage3Dir env a s).1
        (some (pyPathJoin (stage3Dir env a s).2 (sanitize_filename ti)))) :=
      LSok_of_eq h1 (by simp) (by simp)
    unfold stage3Save
    split
    · dsimp only [RunOutcome.stepTraceOK]
      rw [putMessage_trace, setStatus_trace]
      obtain ⟨g1, g2⟩ := LSok_logUpdate _ "SUCCESS"
        ("PDF successfully saved to: " ++ pyPathJoin (stage3Dir env a s).2
          (sanitize_filename ti)) h2
      exact successStepOK_append _ _ _ g1 g2 (fun _ => by decide)
    · split <;>
        · dsimp only [RunOutcome.stepTraceOK]
          rw [putLocalFilepath_trace, setStatus_trace]
          obtain ⟨g1, g2⟩ := LSok_logUpdate _ "ERROR"
            ("Error saving PDF to " ++ pyPathJoin (stage3Dir env a s).2
              (sanitize_filename ti) ++ ": IOError") h2
          exact successStepOK_append _ _ _ g1 g2 (fun _ => by decide)
  · unfold stage3Fail
    by_cases hc : ((["SUCCESS", "FAILURE_OPENALEX_METADATA", "FAILURE_INPUT_ERROR",
        "FAILURE_SCIHUB_NOT_FOUND", "FAILURE_NO_DOI_FOR_SCIHUB"]).contains s.r.status) = true
    · rw [if_pos hc]
      obtain ⟨g1, g2⟩ := LSok_logUpdate s "FAILURE"
        ("Ultimately failed to download PDF for identifier: " ++ s.r.identifier_input ++ ".") h
      split <;>
        · dsimp only [RunOutcome.stepTraceOK]
          exact g1
    · rw [if_neg hc]
      have hsne : s.r.status ≠ "SUCCESS" := by
        intro hEq
        apply hc
        rw [hEq]
        decide
      obtain ⟨g1, g2⟩ := LSok_logUpdate (setStatus s "FAILURE_NO_PDF_CONTENT") "FAILURE" _
        (LSok_setStatus _ _ h (fun hEq => absurd hEq hsne))
      split <;>
        · dsimp only [RunOutcome.stepTraceOK]
          exact g1

/-- The stage 2 / stage 3 pipeline keeps the step rule from any invariant
state, provided content is truthy or the status is not yet SUCCESS (the
two cases stage 1 can hand over). -/
theorem pipeline_stepOK (env : Env) (a : Args) (s : LS) (fd : Option String)
    (ti : String) (pc : Option (List Nat)) (src : Option String)
    (h : LSok s) (hcase : truthyBytes pc = true ∨ s.r.status ≠ "SUCCESS") :
    (stage3 env a (putFinalSource (stage2 env a s fd pc src).1
      (stage2 env a s fd pc src).2.2) ti (stage2 env a s fd pc src).2.1).stepTraceOK
      = true := by
  by_cases hpc : truthyBytes pc = true
  · rw [stage2_skip env a s fd pc src hpc]
    exact stage3_stepOK env a _ ti _ (LSok_of_eq h (by simp) (by simp))
  · have hpc2 : truthyBytes pc = false := by
      cases h2 : truthyBytes pc
      · rfl
      · exact absurd h2 hpc
    have hs : s.r.status ≠ "SUCCESS" := by
      rcases hcase with hcase | hcase
      · exact absurd hcase hpc
      · exact hcase
    exact stage3_stepOK env a _ ti _
      (LSok_of_eq (stage2_stepOK env a s fd pc src hpc2 h hs) (by simp) (by simp))

/-- C2 as amended: on every run, an entry of the status history that
immediately follows a SUCCESS entry is one of the orchestrator's direct
assignments SUCCESS, FAILURE_SAVE_PDF, FAILURE_SCIHUB_NOT_FOUND,
FAILURE_SCIHUB_DOWNLOAD_ERROR, FAILURE_SCIHUB_NO_URL or
FAILURE_SCIHUB_UNEXPECTED_ERROR. In particular the logging helper never
overwrites a SUCCESS status (its severity strings FAILURE, ERROR,
CRITICAL_ERROR, WARNING are not in that set): once SUCCESS is set, only a
direct assignment on the failed-save or failed-Sci-Hub-download paths
replaces it. -/
theorem success_overwritten_only_directly :
    ∀ env a, (doi_to_pdf_downloader env a).stepTraceOK = true := by
  intro env a
  obtain ⟨mr, dh, sr, se, shh, de, mk, wr⟩ := env
  simp only [doi_to_pdf_downloader, logUpdate_info]
  cases mr with
  | raised => rfl
  | valueError m =>
    dsimp only [stage1]
    rw [logUpdate_in_ne _ _ _ (by decide) (initial_status_ne _)]
    by_cases hb : a.is_batch_mode = true
    · rw [if_pos hb]
      dsimp only [RunOutcome.stepTraceOK]
      simp
      decide
    · rw [if_neg hb]
      dsimp only [RunOutcome.stepTraceOK]
      simp
      decide
  | notFound m =>
    dsimp only [stage1]
    rw [logUpdate_in_ne _ _ _ (by decide) (initial_status_ne _)]
    by_cases hd : truthyS a.identifier_doi = true
    · rw [if_pos hd]
      dsimp only
      refine pipeline_stepOK _ a _ _ _ _ _ ?_ (Or.inr ?_)
      · refine LSok_of_computed _ ["INITIATED", "ERROR", "FAILURE_OPENALEX_METADATA"]
          "FAILURE_OPENALEX_METADATA" ?_ ?_ (by decide) (by decide)
        · simp [logUpdate_info]
        · simp [logUpdate_info]
      · simp [logUpdate_info]
    · rw [if_neg hd]
      rw [logUpdate_in_ne _ _ _ (by decide) (setStatus_status_ne _ _ _ (by decide))]
      by_cases hb : a.is_batch_mode = true
      · rw [if_pos hb]
        dsimp only [RunOutcome.stepTraceOK]
        simp
        decide
      · rw [if_neg hb]
        dsimp only [RunOutcome.stepTraceOK]
        simp
        decide
  | ok fdoi title purl api =>
    dsimp only [stage1]
    by_cases hp : truthyS purl = true
    · rw [if_pos hp]
      rw [logUpdate_info]
      cases hdl : download_pdf_content (purl.getD "") dh with
      | ok bytes =>
        dsimp only
        rw [logUpdate_in_ne _ _ _ (by decide) (by simp [initial_summary])]
        refine pipeline_stepOK _ a _ _ _ _ _ ?_
          (Or.inl (truthyBytes_some_ne bytes (download_ok_ne_nil _ _ _ hdl)))
        refine LSok_of_computed _ ["INITIATED", "SUCCESS", "SUCCESS"]
          "SUCCESS" ?_ ?_ (by decide) (by decide)
        · simp
        · simp
      | nfe m =>
        dsimp only
        rw [logUpdate_in_ne _ _ _ (by decide) (by simp [initial_summary])]
        refine pipeline_stepOK _ a _ _ _ _ _ ?_ (Or.inr ?_)
        · refine LSok_of_computed _ ["INITIATED", "WARNING", "FAILURE_DIRECT_DOWNLOAD"]
            "FAILURE_DIRECT_DOWNLOAD" ?_ ?_ (by decide) (by decide)
          · simp
          · simp
        · simp
      | raised m => rfl
    · rw [if_neg hp]
      dsimp only
      refine pipeline_stepOK _ a _ _ _ _ _ ?_ (Or.inr ?_)
      · refine LSok_of_computed _ ["INITIATED", "INFO_NO_DIRECT_OA_URL"]
          "INFO_NO_DIRECT_OA_URL" ?_ ?_ (by decide) (by decide)
        · simp [logUpdate_info]
        · simp [logUpdate_info]
      · simp [logUpdate_info]

/-! ## C1: totality of the orchestrator -/

theorem logUpdate_status_in (s : LS) (sev m : String)
    (hsev : summarySeverities.contains sev = true) :
    (logUpdate s sev m).r.status = sev ∨ (logUpdate s sev m).r.status = "SUCCESS" := by
  unfold logUpdate
  rw [if_pos hsev]
  by_cases h : s.r.status = "SUCCESS"
  · rw [if_pos h]
    right
    simpa using h
  · rw [if_neg h]
    left
    simp

theorem stage3Save_batch (env : Env) (a : Args) (s : LS) (fp : String)
    (hb : a.is_batch_mode = true) :
    ∃ r t, stage3Save env a s fp = .returned r t ∧
      (r.status = "SUCCESS" ∨ r.status = "FAILURE_SAVE_PDF") := by
  unfold stage3Save
  split
  · exact ⟨_, _, rfl, Or.inl (by simp)⟩
  · exact ⟨_, _, rfl, Or.inr (by simp)⟩

theorem stage3Fail_batch (a : Args) (s : LS) (hb : a.is_batch_mode = true) :
    ∃ r t, stage3Fail a s = .returned r t ∧
      (r.status = "SUCCESS" ∨ r.status = "FAILURE") := by
  unfold stage3Fail
  dsimp only
  rw [if_pos hb]
  refine ⟨_, _, rfl, ?_⟩
  rcases logUpdate_status_in
    (if (["SUCCESS", "FAILURE_OPENALEX_METADATA", "FAILURE_INPUT_ERROR",
        "FAILURE_SCIHUB_NOT_FOUND", "FAILURE_NO_DOI_FOR_SCIHUB"].contains s.r.status) then s
      else setStatus s "FAILURE_NO_PDF_CONTENT")
    "FAILURE"
    ("Ultimately failed to download PDF for identifier: " ++
      (if (["SUCCESS", "FAILURE_OPENALEX_METADATA", "FAILURE_INPUT_ERROR",
          "FAILURE_SCIHUB_NOT_FOUND", "FAILURE_NO_DOI_FOR_SCIHUB"].contains s.r.status) then s
        else setStatus s "FAILURE_NO_PDF_CONTENT").r.identifier_input ++ ".")
    (by decide) with h | h
  · exact Or.inr h
  · exact Or.inl h

theorem stage3_batch (env : Env) (a : Args) (s : LS) (ti : String)
    (pc : Option (List Nat)) (hb : a.is_batch_mode = true) :
    ∃ r t, stage3 env a s ti pc = .returned r t ∧
      (r.status = "SUCCESS" ∨ r.status = "FAILURE_SAVE_PDF" ∨ r.status = "FAILURE") := by
  unfold stage3
  split
  · obtain ⟨r, t, he, hst⟩ := stage3Save_batch env a
      (putLocalFilepath (stage3Dir env a s).1
        (some (pyPathJoin (stage3Dir env a s).2 (sanitize_filename ti))))
      (pyPathJoin (stage3Dir env a s).2 (sanitize_filename ti)) hb
    refine ⟨r, t, he, ?_⟩
    rcases hst with h | h
    · exact Or.inl h
    · exact Or.inr (Or.inl h)
  · obtain ⟨r, t, he, hst⟩ := stage3Fail_batch a s hb
    refine ⟨r, t, he, ?_⟩
    rcases hst with h | h
    · exact Or.inl h
    · exact Or.inr (Or.inr h)

def c1StatusSet (v : String) : Prop :=
  v = "SUCCESS" ∨ v = "FAILURE" ∨ v = "ERROR" ∨
    v = "FAILURE_INPUT_ERROR" ∨ v = "FAILURE_SAVE_PDF"

/-- C1 counterexample environment and arguments: single-item mode, metadata
lookup fails with NotFoundError and no DOI was supplied. -/
def c1Env : Env where
  metaResult := .notFound "HTTP 404"
  directHTTP := .requestError "x"
  selRaises := none
  selEnv := { body := .noLink, quitOutcome := .ok, cookieResult := none }
  scihubHTTP := .requestError "x"
  dirExists := true
  mkdirOk := true
  writeOk := true

def c1Args : Args where
  identifier_doi := none
  identifier_name := some "Example Paper"
  identifier_url := none
  output_dir := "."
  is_batch_mode := false
  scihub_retrieval_method := "selenium"

/-- C1 is falsified on the code: in single-item mode a total failure calls
sys.exit(1) instead of returning a summary to the caller. -/
theorem orchestrator_exits_single_mode :
    (doi_to_pdf_downloader c1Env c1Args).isReturned = false := by decide

/-- C1 as amended: in batch mode, when the metadata stage does not fault
with an uncaught exception kind and the direct-download response is not an
uncaught fault, the orchestrator always returns a summary whose final
status lies in the closed set SUCCESS, FAILURE, ERROR,
FAILURE_INPUT_ERROR, FAILURE_SAVE_PDF; in single-item mode a total failure
exits the process instead of returning. -/
theorem orchestrator_total_in_batch :
    ∀ env a, a.is_batch_mode = true → env.metaResult ≠ .raised →
      (∀ m, env.directHTTP ≠ .unexpected m) →
      ∃ r t, doi_to_pdf_downloader env a = .returned r t ∧ c1StatusSet r.status := by
  intro env a hb hm hd
  obtain ⟨mr, dh, sr, se, shh, de, mk, wr⟩ := env
  simp only [doi_to_pdf_downloader, logUpdate_info]
  cases mr with
  | raised => exact absurd rfl hm
  | valueError m =>
    dsimp only [stage1]
    rw [if_pos hb]
    exact ⟨_, _, rfl, Or.inr (Or.inr (Or.inr (Or.inl (by simp))))⟩
  | notFound m =>
    dsimp only [stage1]
    rw [logUpdate_in_ne _ _ _ (by decide) (initial_status_ne _)]
    by_cases hdoi : truthyS a.identifier_doi = true
    · rw [if_pos hdoi]
      dsimp only
      obtain ⟨r, t, he, hst⟩ := stage3_batch _ a _ _ _ hb
      refine ⟨r, t, he, ?_⟩
      rcases hst with h | h | h
      · exact Or.inl h
      · exact Or.inr (Or.inr (Or.inr (Or.inr h)))
      · exact Or.inr (Or.inl h)
    · rw [if_neg hdoi]
      rw [logUpdate_in_ne _ _ _ (by decide) (setStatus_status_ne _ _ _ (by decide))]
      rw [if_pos hb]
      exact ⟨_, _, rfl, Or.inr (Or.inr (Or.inl (by simp)))⟩
  | ok fdoi title purl api =>
    dsimp only [stage1]
    by_cases hp : truthyS purl = true
    · rw [if_pos hp]
      rw [logUpdate_info]
      cases hdl : download_pdf_content (purl.getD "") dh with
      | ok bytes =>
        dsimp only
        obtain ⟨r, t, he, hst⟩ := stage3_batch _ a _ _ _ hb
        refine ⟨r, t, he, ?_⟩
        rcases hst with h | h | h
        · exact Or.inl h
        · exact Or.inr (Or.inr (Or.inr (Or.inr h)))
        · exact Or.inr (Or.inl h)
      | nfe m =>
        dsimp only
        obtain ⟨r, t, he, hst⟩ := stage3_batch _ a _ _ _ hb
        refine ⟨r, t, he, ?_⟩
        rcases hst with h | h | h
        · exact Or.inl h
        · exact Or.inr (Or.inr (Or.inr (Or.inr h)))
        · exact Or.inr (Or.inl h)
      | raised m =>
        exact absurd hdl (download_not_raised _ _ (fun m2 => hd m2) m)
    · rw [if_neg hp]
      dsimp only
      obtain ⟨r, t, he, hst⟩ := stage3_batch _ a _ _ _ hb
      refine ⟨r, t, he, ?_⟩
      rcases hst with h | h | h
      · exact Or.inl h
      · exact Or.inr (Or.inr (Or.inr (Or.inr h)))
      · exact Or.inr (Or.inl h)

/-- Closed instance of the C1 theorem: a batch-mode call with a direct
download that succeeds returns a summary with a status in the closed set. -/
theorem orchestrator_total_in_batch_witness :
    ∃ r t, doi_to_pdf_downloader c2Env { c1Args with is_batch_mode := true }
      = .returned r t ∧ c1StatusSet r.status :=
  orchestrator_total_in_batch c2Env { c1Args with is_batch_mode := true }
    rfl (fun h => MetaOutcome.noConfusion h) (fun _ h => HTTPResult.noConfusion h)

/-! ## Field preservation through stages 2 and 3 -/

@[simp] theorem scihubNotFoundHandler_resolved (s : LS) (m : String) :
    (scihubNotFoundHandler s m).r.resolved_doi = s.r.resolved_doi := by
  simp only [scihubNotFoundHandler]
  split <;> simp

@[simp] theorem scihubNotFoundHandler_title (s : LS) (m : String) :
    (scihubNotFoundHandler s m).r.paper_title = s.r.paper_title := by
  simp only [scihubNotFoundHandler]
  split <;> simp

@[simp] theorem scihubNotFoundHandler_scihub (s : LS) (m : String) :
    (scihubNotFoundHandler s m).r.scihub_page_url_tried = s.r.scihub_page_url_tried := by
  simp only [scihubNotFoundHandler]
  split <;> simp

@[simp] theorem scihubNoUrlHandler_resolved (s : LS) :
    (scihubNoUrlHandler s).r.resolved_doi = s.r.resolved_doi := by
  simp only [scihubNoUrlHandler]
  split <;> simp

@[simp] theorem scihubNoUrlHandler_title (s : LS) :
    (scihubNoUrlHandler s).r.paper_title = s.r.paper_title := by
  simp only [scihubNoUrlHandler]
  split <;> simp

@[simp] theorem scihubNoUrlHandler_scihub (s : LS) :
    (scihubNoUrlHandler s).r.scihub_page_url_tried = s.r.scihub_page_url_tried := by
  simp only [scihubNoUrlHandler]
  split <;> simp

@[simp] theorem scihubUnexpectedHandler_resolved (s : LS) (m : String) :
    (scihubUnexpectedHandler s m).r.resolved_doi = s.r.resolved_doi := by
  simp only [scihubUnexpectedHandler]
  simp

@[simp] theorem scihubUnexpectedHandler_title (s : LS) (m : String) :
    (scihubUnexpectedHandler s m).r.paper_title = s.r.paper_title := by
  simp only [scihubUnexpectedHandler]
  simp

@[simp] theorem scihubUnexpectedHandler_scihub (s : LS) (m : String) :
    (scihubUnexpectedHandler s m).r.scihub_page_url_tried = s.r.scihub_page_url_tried := by
  simp only [scihubUnexpectedHandler]
  simp

theorem trace_extend_notFoundHandler (s : LS) (m : String) :
    ∃ δ, (scihubNotFoundHandler s m).trace = s.trace ++ δ := by
  simp only [scihubNotFoundHandler]
  split <;>
    exact trace_extend_trans (trace_extend_setStatus _ _) (trace_extend_logUpdate _ _ _)

theorem trace_extend_noUrlHandler (s : LS) :
    ∃ δ, (scihubNoUrlHandler s).trace = s.trace ++ δ := by
  simp only [scihubNoUrlHandler]
  split
  · exact trace_extend_logUpdate _ _ _
  · exact trace_extend_trans (trace_extend_logUpdate _ _ _) (trace_extend_setStatus _ _)

theorem trace_extend_unexpectedHandler (s : LS) (m : String) :
    ∃ δ, (scihubUnexpectedHandler s m).trace = s.trace ++ δ := by
  simp only [scihubUnexpectedHandler]
  exact trace_extend_trans (trace_extend_logUpdate _ _ _) (trace_extend_setStatus _ _)

/-- Stage 2 never changes the resolved DOI or the title, and only appends
to the trace. -/
theorem stage2_preserves (env : Env) (a : Args) (s : LS) (fd : Option String)
    (pc : Option (List Nat)) (src : Option String) :
    (stage2 env a s fd pc src).1.r.resolved_doi = s.r.resolved_doi ∧
    (stage2 env a s fd pc src).1.r.paper_title = s.r.paper_title ∧
    ∃ δ, (stage2 env a s fd pc src).1.trace = s.trace ++ δ := by
  obtain ⟨mr, dh, sr, se, shh, de, mk, wr⟩ := env
  by_cases hc1 : (!(truthyBytes pc) && truthyS fd) = true
  · simp only [stage2, hc1, if_true]
    by_cases hm : a.scihub_retrieval_method = "selenium"
    · rw [if_pos hm]
      cases sr with
      | some m =>
        dsimp only
        exact ⟨by simp, by simp, trace_extend_unexpectedHandler _ _⟩
      | none =>
        dsimp only
        generalize (retrieve_scihub_pdf_link_selenium se (fd.getD "") SCI_HUB_URL).1 = res
        cases res with
        | retOk u cookies =>
          dsimp only
          by_cases hu : u = ""
          · rw [if_pos hu]
            refine ⟨by simp, by simp, ?_⟩
            refine trace_extend_trans ?_ (trace_extend_noUrlHandler _)
            refine trace_extend_trans ?_ (trace_extend_applyLogs _ _)
            exact ⟨[], by simp [logUpdate_info]⟩
          · rw [if_neg hu]
            cases hdl : download_pdf_content u shh with
            | ok bytes =>
              dsimp only
              refine ⟨by simp, by simp, ?_⟩
              refine trace_extend_trans ?_ (trace_extend_setStatus _ _)
              refine trace_extend_trans ?_ (trace_extend_logUpdate _ _ _)
              refine trace_extend_trans ?_ (trace_extend_applyLogs _ _)
              exact ⟨[], by simp [logUpdate_info]⟩
            | nfe m =>
              dsimp only
              refine ⟨by simp, by simp, ?_⟩
              refine trace_extend_trans ?_ (trace_extend_notFoundHandler _ _)
              refine trace_extend_trans ?_ (trace_extend_applyLogs _ _)
              exact ⟨[], by simp [logUpdate_info]⟩
            | raised m =>
              dsimp only
              refine ⟨by simp, by simp, ?_⟩
              refine trace_extend_trans ?_ (trace_extend_unexpectedHandler _ _)
              refine trace_extend_trans ?_ (trace_extend_applyLogs _ _)
              exact ⟨[], by simp [logUpdate_info]⟩
        | raiseNotFound m =>
          dsimp only
          refine ⟨by simp, by simp, ?_⟩
          refine trace_extend_trans ?_ (trace_extend_notFoundHandler _ _)
          refine trace_extend_trans ?_ (trace_extend_applyLogs _ _)
          exact ⟨[], by simp [logUpdate_info]⟩
        | raiseValueError m =>
          dsimp only
          refine ⟨by simp, by simp, ?_⟩
          refine trace_extend_trans ?_ (trace_extend_setStatus _ _)
          refine trace_extend_trans ?_ (trace_extend_logUpdate _ _ _)
          refine trace_extend_trans ?_ (trace_extend_applyLogs _ _)
          exact ⟨[], by simp [logUpdate_info]⟩
    · rw [if_neg hm]
      refine ⟨by simp, by simp, ?_⟩
      refine trace_extend_trans ?_ (trace_extend_notFoundHandler _ _)
      refine trace_extend_trans ?_ (trace_extend_logUpdate _ _ _)
      exact ⟨[], by simp [logUpdate_info]⟩
  · simp only [stage2]
    rw [if_neg hc1]
    by_cases hc2 : (!(truthyBytes pc) && !(truthyS fd)) = true
    · rw [if_pos hc2]
      refine ⟨?_, ?_, ?_⟩
      · split <;> simp
      · split <;> simp
      · split
        · exact trace_extend_logUpdate _ _ _
        · exact trace_extend_trans (trace_extend_logUpdate _ _ _) (trace_extend_setStatus _ _)
    · rw [if_neg hc2]
      exact ⟨rfl, rfl, [], by simp⟩

/-- Stage 2, entered with no content and a truthy DOI, records the Sci-Hub
page URL built from that DOI, on every path. -/
theorem stage2_sets_page (env : Env) (a : Args) (s : LS) (fd : Option String)
    (pc : Option (List Nat)) (src : Option String)
    (hpc : truthyBytes pc = false) (hfd : truthyS fd = true) :
    (stage2 env a s fd pc src).1.r.scihub_page_url_tried =
      some (scihub_page_url (fd.getD "")) := by
  obtain ⟨mr, dh, sr, se, shh, de, mk, wr⟩ := env
  simp only [stage2, hpc, hfd, Bool.not_false, Bool.true_and, if_true, logUpdate_info]
  by_cases hm : a.scihub_retrieval_method = "selenium"
  · rw [if_pos hm]
    cases sr with
    | some m =>
      dsimp only
      simp
    | none =>
      dsimp only
      generalize (retrieve_scihub_pdf_link_selenium se (fd.getD "") SCI_HUB_URL).1 = res
      cases res with
      | retOk u cookies =>
        dsimp only
        by_cases hu : u = ""
        · rw [if_pos hu]
          simp
        · rw [if_neg hu]
          cases hdl : download_pdf_content u shh with
          | ok bytes => simp
          | nfe m => simp
          | raised m => simp
      | raiseNotFound m => simp
      | raiseValueError m => simp
  · rw [if_neg hm]
    simp

/-- Stage 3 never changes the resolved DOI, the title or the recorded
Sci-Hub page URL, and only appends to the trace. -/
theorem stage3_preserves (env : Env) (a : Args) (s : LS) (ti : String)
    (pc : Option (List Nat)) :
    ∃ r t, (stage3 env a s ti pc = .returned r t ∨ stage3 env a s ti pc = .exited r t) ∧
      r.resolved_doi = s.r.resolved_doi ∧ r.paper_title = s.r.paper_title ∧
      r.scihub_page_url_tried = s.r.scihub_page_url_tried ∧
      ∃ δ, t = s.trace ++ δ := by
  obtain ⟨mr, dh, sr, se, shh, de, mk, wr⟩ := env
  have hdirF : (stage3Dir ⟨mr, dh, sr, se, shh, de, mk, wr⟩ a s).1.r.resolved_doi
      = s.r.resolved_doi ∧
      (stage3Dir ⟨mr, dh, sr, se, shh, de, mk, wr⟩ a s).1.r.paper_title = s.r.paper_title ∧
      (stage3Dir ⟨mr, dh, sr, se, shh, de, mk, wr⟩ a s).1.r.scihub_page_url_tried
        = s.r.scihub_page_url_tried ∧
      ∃ δ, (stage3Dir ⟨mr, dh, sr, se, shh, de, mk, wr⟩ a s).1.trace = s.trace ++ δ := by
    simp only [stage3Dir]
    split
    · exact ⟨rfl, rfl, rfl, [], by simp⟩
    · split
      · exact ⟨by simp, by simp, by simp, trace_extend_logUpdate _ _ _⟩
      · exact ⟨by simp, by simp, by simp, trace_extend_logUpdate _ _ _⟩
  unfold stage3
  split
  · -- save path
    obtain ⟨p1, p2, p3, p4⟩ := hdirF
    unfold stage3Save
    split
    · refine ⟨_, _, Or.inl rfl, ?_, ?_, ?_, ?_⟩
      · simp [p1]
      · simp [p2]
      · simp [p3]
      · refine trace_extend_trans p4 ?_
        exact trace_extend_trans (trace_extend_trans (⟨[], by simp⟩)
          (trace_extend_logUpdate _ _ _)) (trace_extend_setStatus _ _)
    · split <;>
        · refine ⟨_, _, by first | exact Or.inl rfl | exact Or.inr rfl, ?_, ?_, ?_, ?_⟩
          · simp [p1]
          · simp [p2]
          · simp [p3]
          · refine trace_extend_trans p4 ?_
            exact trace_extend_trans (trace_extend_trans (⟨[], by simp⟩)
              (trace_extend_logUpdate _ _ _)) (trace_extend_setStatus _ _)
  · -- failure path
    unfold stage3Fail
    have hmid : ∀ s1 : LS, s1.r.resolved_doi = s.r.resolved_doi →
        s1.r.paper_title = s.r.paper_title →
        s1.r.scihub_page_url_tried = s.r.scihub_page_url_tried →
        (∃ δ, s1.trace = s.trace ++ δ) →
        ∀ msg, (logUpdate s1 "FAILURE" msg).r.resolved_doi = s.r.resolved_doi ∧
          (logUpdate s1 "FAILURE" msg).r.paper_title = s.r.paper_title ∧
          (logUpdate s1 "FAILURE" msg).r.scihub_page_url_tried = s.r.scihub_page_url_tried ∧
          ∃ δ, (logUpdate s1 "FAILURE" msg).trace = s.trace ++ δ := by
      intro s1 q1 q2 q3 q4 msg
      exact ⟨by simp [q1], by simp [q2], by simp [q3],
        trace_extend_trans q4 (trace_extend_logUpdate _ _ _)⟩
    split
    · split
      · obtain ⟨q1, q2, q3, q4⟩ := hmid s rfl rfl rfl ⟨[], by simp⟩ _
        exact ⟨_, _, Or.inl rfl, q1, q2, q3, q4⟩
      · obtain ⟨q1, q2, q3, q4⟩ := hmid s rfl rfl rfl ⟨[], by simp⟩ _
        exact ⟨_, _, Or.inr rfl, q1, q2, q3, q4⟩
    · split
      · obtain ⟨q1, q2, q3, q4⟩ := hmid (setStatus s "FAILURE_NO_PDF_CONTENT")
          (by simp) (by simp) (by simp) ⟨["FAILURE_NO_PDF_CONTENT"], by simp⟩ _
        exact ⟨_, _, Or.inl rfl, q1, q2, q3, q4⟩
      · obtain ⟨q1, q2, q3, q4⟩ := hmid (setStatus s "FAILURE_NO_PDF_CONTENT")
          (by simp) (by simp) (by simp) ⟨["FAILURE_NO_PDF_CONTENT"], by simp⟩ _
        exact ⟨_, _, Or.inr rfl, q1, q2, q3, q4⟩

/-! ## C5: the metadata NotFoundError policy -/

/-- Stage 1 on a metadata NotFoundError with a truthy DOI argument: the DOI
branch of lines 515-527. -/
theorem stage1_notFound_doi (env : Env) (a : Args) (s : LS) (m d : String)
    (hm : env.metaResult = .notFound m) (hd : a.identifier_doi = some d) (hne : d ≠ "") :
    stage1 env a s = .proceed
      (putPaperTitle
        (putResolvedDoi
          (setStatus (logUpdate s "ERROR" ("Error fetching metadata from OpenAlex: " ++ m ++ "."))
            "FAILURE_OPENALEX_METADATA")
          (some d))
        (pyReplaceChar (pyReplaceChar d '/' '_') '.' '_'))
      (some d) (pyReplaceChar (pyReplaceChar d '/' '_') '.' '_') none none := by
  simp only [stage1]
  rw [hm]
  dsimp only
  rw [hd, if_pos (truthyS_some_ne d hne)]
  simp [logUpdate_info]

/-- Stage 1 on a metadata NotFoundError without a truthy DOI argument: the
else branch of lines 528-532. -/
theorem stage1_notFound_nodoi (env : Env) (a : Args) (s : LS) (m : String)
    (hm : env.metaResult = .notFound m) (hFd : truthyS a.identifier_doi = false) :
    stage1 env a s =
      (let sE := logUpdate (setStatus (logUpdate s "ERROR"
          ("Error fetching metadata from OpenAlex: " ++ m ++ "."))
          "FAILURE_OPENALEX_METADATA") "ERROR"
          "Could not obtain DOI from OpenAlex to attempt Sci-Hub download.";
       if a.is_batch_mode then .finish (.returned sE.r sE.trace)
       else .finish (.exited sE.r sE.trace)) := by
  simp only [stage1]
  rw [hm]
  dsimp only
  rw [if_neg (by simp [hFd])]

/-- The stage 2 / stage 3 pipeline entered with no content and a non-empty
DOI keeps the resolved DOI and title, keeps every status already in the
history, and records the Sci-Hub page URL for that DOI. -/
theorem pipeline_keeps_notfound_fields (env : Env) (a : Args) (sA : LS) (d ti : String)
    (hne : d ≠ "")
    (h1 : sA.r.resolved_doi = some d) (h2 : sA.r.paper_title = ti)
    (h3 : "FAILURE_OPENALEX_METADATA" ∈ sA.trace) :
    ∃ r t,
      (stage3 env a (putFinalSource (stage2 env a sA (some d) none none).1
          (stage2 env a sA (some d) none none).2.2) ti
          (stage2 env a sA (some d) none none).2.1 = .returned r t ∨
       stage3 env a (putFinalSource (stage2 env a sA (some d) none none).1
          (stage2 env a sA (some d) none none).2.2) ti
          (stage2 env a sA (some d) none none).2.1 = .exited r t) ∧
      r.resolved_doi = some d ∧ r.paper_title = ti ∧
      "FAILURE_OPENALEX_METADATA" ∈ t ∧
      r.scihub_page_url_tried = some (scihub_page_url d) := by
  obtain ⟨p1, p2, ptr⟩ := stage2_preserves env a sA (some d) none none
  have hpage := stage2_sets_page env a sA (some d) none none
    truthyBytes_none (truthyS_some_ne d hne)
  obtain ⟨r, t, hout, q1, q2, q3, δ3, qtr⟩ := stage3_preserves env a
    (putFinalSource (stage2 env a sA (some d) none none).1
      (stage2 env a sA (some d) none none).2.2) ti
    (stage2 env a sA (some d) none none).2.1
  refine ⟨r, t, hout, ?_, ?_, ?_, ?_⟩
  · rw [q1, putFinalSource_resolved, p1, h1]
  · rw [q2, putFinalSource_title, p2, h2]
  · obtain ⟨δ2, hδ2⟩ := ptr
    rw [qtr, putFinalSource_trace, hδ2]
    exact List.mem_append_left _ (List.mem_append_left _ h3)
  · rw [q3, putFinalSource_scihub, hpage]
    simp

def c5Env : Env where
  metaResult := .notFound "HTTP 404 from OpenAlex"
  directHTTP := .requestError "unused"
  selRaises := some "unexpected driver startup fault"
  selEnv := { body := .noLink, quitOutcome := .ok, cookieResult := none }
  scihubHTTP := .requestError "unused"
  dirExists := true
  mkdirOk := true
  writeOk := true

def c5Args : Args where
  identifier_doi := some "10.1/x"
  identifier_name := none
  identifier_url := none
  output_dir := "."
  is_batch_mode := true
  scihub_retrieval_method := "selenium"

def c5bArgs : Args where
  identifier_doi := none
  identifier_name := some "Some Paper Title"
  identifier_url := none
  output_dir := "."
  is_batch_mode := true
  scihub_retrieval_method := "selenium"

/-- C5 counterexample for the non-DOI half: with a metadata NotFoundError
and no DOI argument, the orchestrator's final status is ERROR, not
FAILURE_OPENALEX_METADATA (the closing error log overwrites the status
set at line 517), and in single-item mode the call ends in sys.exit(1)
instead of a return. -/
theorem metadata_notfound_status_counterexample :
    ((doi_to_pdf_downloader c5Env c5bArgs).summaryOf.map RunResult.status = some "ERROR") ∧
    ((doi_to_pdf_downloader c5Env c5bArgs).summaryOf.map RunResult.status ≠
      some "FAILURE_OPENALEX_METADATA") ∧
    ((doi_to_pdf_downloader c5Env c5bArgs).traceOf =
      ["INITIATED", "ERROR", "FAILURE_OPENALEX_METADATA", "ERROR"]) ∧
    ((doi_to_pdf_downloader c5Env c5bArgs).summaryOf.map
      RunResult.scihub_page_url_tried = some none) ∧
    ((doi_to_pdf_downloader c5Env { c5bArgs with is_batch_mode := false }).isReturned
      = false) := by
  refine ⟨?_, ?_, ?_, ?_, ?_⟩ <;> decide

/-- C5: on a metadata NotFoundError the orchestrator behaves as follows.
With a DOI argument d, it adopts the literal d as resolved DOI, takes the
placeholder title d with / and . replaced by _, records
FAILURE_OPENALEX_METADATA in the status history, and still attempts the
Sci-Hub fallback for d (its page URL is recorded in the summary). Without
a DOI argument no fallback is attempted and the run finishes at once —
but the final status is ERROR (the error log at line 530 overwrites
FAILURE_OPENALEX_METADATA, which survives only in the history), and in
single-item mode the run ends in sys.exit(1) rather than a return. -/
theorem metadata_notfound_fallback_policy (env : Env) (a : Args) (m : String)
    (hm : env.metaResult = .notFound m) :
    (∀ d, a.identifier_doi = some d → d ≠ "" →
      ∃ r t, (doi_to_pdf_downloader env a = .returned r t ∨
              doi_to_pdf_downloader env a = .exited r t) ∧
        r.resolved_doi = some d ∧
        r.paper_title = pyReplaceChar (pyReplaceChar d '/' '_') '.' '_' ∧
        "FAILURE_OPENALEX_METADATA" ∈ t ∧
        r.scihub_page_url_tried = some (scihub_page_url d)) ∧
    (truthyS a.identifier_doi = false →
      ∃ r t, (if a.is_batch_mode then doi_to_pdf_downloader env a = .returned r t
              else doi_to_pdf_downloader env a = .exited r t) ∧
        r.status = "ERROR" ∧
        "FAILURE_OPENALEX_METADATA" ∈ t ∧
        r.scihub_page_url_tried = none) := by
  constructor
  · intro d hd hne
    simp only [doi_to_pdf_downloader]
    rw [stage1_notFound_doi env a _ m d hm hd hne]
    dsimp only
    refine pipeline_keeps_notfound_fields env a _ d _ hne ?_ ?_ ?_
    · simp
    · simp
    · rw [putPaperTitle_trace, putResolvedDoi_trace, setStatus_trace]
      exact List.mem_append_right _ (by simp)
  · intro hFd
    simp only [doi_to_pdf_downloader]
    rw [stage1_notFound_nodoi env a _ m hm hFd]
    cases hb : a.is_batch_mode
    · dsimp only
      refine ⟨_, _, rfl, ?_, ?_, ?_⟩
      · simp [logUpdate, setStatus, appendMessage, summarySeverities, initial_summary]
      · simp [logUpdate, setStatus, appendMessage, summarySeverities, initial_summary]
      · simp [logUpdate, setStatus, appendMessage, summarySeverities, initial_summary]
    · dsimp only
      refine ⟨_, _, rfl, ?_, ?_, ?_⟩
      · simp [logUpdate, setStatus, appendMessage, summarySeverities, initial_summary]
      · simp [logUpdate, setStatus, appendMessage, summarySeverities, initial_summary]
      · simp [logUpdate, setStatus, appendMessage, summarySeverities, initial_summary]

/-- The C5 policy at a concrete NotFound environment and a concrete DOI
argument: the fallback is attempted with the literal DOI. -/
theorem metadata_notfound_fallback_policy_witness :
    ∃ r t, (doi_to_pdf_downloader c5Env c5Args = .returned r t ∨
            doi_to_pdf_downloader c5Env c5Args = .exited r t) ∧
      r.resolved_doi = some "10.1/x" ∧
      r.paper_title = pyReplaceChar (pyReplaceChar "10.1/x" '/' '_') '.' '_' ∧
      "FAILURE_OPENALEX_METADATA" ∈ t ∧
      r.scihub_page_url_tried = some (scihub_page_url "10.1/x") :=
  (metadata_notfound_fallback_policy c5Env c5Args "HTTP 404 from OpenAlex" rfl).1
    "10.1/x" rfl (by decide)

/-! ## C8: DOI prefix normalization -/

theorem toList_append (s t : String) : (s ++ t).toList = s.toList ++ t.toList := rfl

theorem mk_toList (s : String) : String.mk s.toList = s := rfl

theorem doiPrefixHttps : "https://doi.org/".toList =
    ['h','t','t','p','s',':','/','/','d','o','i','.','o','r','g','/'] := by decide

theorem doiPrefixHttp : "http://doi.org/".toList =
    ['h','t','t','p',':','/','/','d','o','i','.','o','r','g','/'] := by decide

/-- normalize_doi strips the https scheme prefix down to the bare DOI. -/
theorem normalize_doi_https (d : String) : normalize_doi ("https://doi.org/" ++ d) = d := by
  have h : ("https://doi.org/" ++ d).toList =
      ['h','t','t','p','s',':','/','/','d','o','i','.','o','r','g','/'] ++ d.toList := by
    rw [toList_append, doiPrefixHttps]
  simp only [normalize_doi, h, doiPrefixHttps, doiPrefixHttp]
  rw [if_pos (List.isPrefixOf_iff_prefix.mpr (List.prefix_append _ _))]
  have hdrop : (['h','t','t','p','s',':','/','/','d','o','i','.','o','r','g','/'] ++
      d.toList).drop 16 = d.toList :=
    List.drop_left ['h','t','t','p','s',':','/','/','d','o','i','.','o','r','g','/'] d.toList
  rw [hdrop, mk_toList]

/-- normalize_doi strips the http scheme prefix down to the bare DOI. -/
theorem normalize_doi_http (d : String) : normalize_doi ("http://doi.org/" ++ d) = d := by
  have h : ("http://doi.org/" ++ d).toList =
      ['h','t','t','p',':','/','/','d','o','i','.','o','r','g','/'] ++ d.toList := by
    rw [toList_append, doiPrefixHttp]
  simp only [normalize_doi, h, doiPrefixHttps, doiPrefixHttp]
  rw [if_neg (by simp [List.isPrefixOf])]
  rw [if_pos (List.isPrefixOf_iff_prefix.mpr (List.prefix_append _ _))]
  have hdrop : (['h','t','t','p',':','/','/','d','o','i','.','o','r','g','/'] ++
      d.toList).drop 15 = d.toList :=
    List.drop_left ['h','t','t','p',':','/','/','d','o','i','.','o','r','g','/'] d.toList
  rw [hdrop, mk_toList]

theorem prefixed_doi_ne_empty (pre d : String) (hp : pre.toList.length ≠ 0) :
    (pre ++ d) ≠ "" := by
  intro h
  have h2 := congrArg (fun s => s.toList.length) h
  simp only [toList_append, List.length_append] at h2
  have h0 : ("" : String).toList.length = 0 := rfl
  rw [h0] at h2
  omega

def c8Env : Env where
  metaResult := .notFound "HTTP 404"
  directHTTP := .requestError "unused"
  selRaises := some "unexpected driver startup fault"
  selEnv := { body := .noLink, quitOutcome := .ok, cookieResult := none }
  scihubHTTP := .requestError "unused"
  dirExists := true
  mkdirOk := true
  writeOk := true

def c8ArgsHttps : Args where
  identifier_doi := some "https://doi.org/10.1/x"
  identifier_name := none
  identifier_url := none
  output_dir := "."
  is_batch_mode := true
  scihub_retrieval_method := "selenium"

def c8ArgsHttp : Args where
  identifier_doi := some "http://doi.org/10.1/x"
  identifier_name := none
  identifier_url := none
  output_dir := "."
  is_batch_mode := true
  scihub_retrieval_method := "selenium"

/-- C8 counterexample for the fallback half: when metadata lookup raises
NotFoundError, the Sci-Hub fallback is attempted with the literal, still
prefixed input DOI (line 519 copies identifier_doi unchanged), so the
http and https forms of the same DOI reach different Sci-Hub page URLs
and neither equals the page URL of the bare DOI. -/
theorem doi_prefix_fallback_counterexample :
    ((doi_to_pdf_downloader c8Env c8ArgsHttps).summaryOf.map RunResult.scihub_page_url_tried
      = some (some "https://sci-hub.mksa.top/https://doi.org/10.1/x")) ∧
    ((doi_to_pdf_downloader c8Env c8ArgsHttp).summaryOf.map RunResult.scihub_page_url_tried
      = some (some "https://sci-hub.mksa.top/http://doi.org/10.1/x")) ∧
    ((doi_to_pdf_downloader c8Env c8ArgsHttps).summaryOf.map RunResult.scihub_page_url_tried ≠
     (doi_to_pdf_downloader c8Env c8ArgsHttp).summaryOf.map RunResult.scihub_page_url_tried) ∧
    ((doi_to_pdf_downloader c8Env c8ArgsHttps).summaryOf.map RunResult.scihub_page_url_tried ≠
      some (some (scihub_page_url "10.1/x"))) := by
  refine ⟨?_, ?_, ?_, ?_⟩ <;> decide

/-- C8: a doi.org-prefixed DOI is normalized to the bare DOI for the
OpenAlex metadata query, identically for the http and the https scheme,
and the API URL built from either form is the same. But the fallback
path does not use the normalized identifier: when metadata lookup raises
NotFoundError, the orchestrator adopts the literal prefixed input as the
resolved DOI and builds the Sci-Hub page URL from it, so the two scheme
forms diverge there. -/
theorem doi_normalization_policy (env : Env) (a : Args) (d m : String)
    (hm : env.metaResult = .notFound m)
    (hd : a.identifier_doi = some ("https://doi.org/" ++ d)) :
    normalize_doi ("https://doi.org/" ++ d) = d ∧
    normalize_doi ("http://doi.org/" ++ d) = d ∧
    doi_api_url ("http://doi.org/" ++ d) = doi_api_url ("https://doi.org/" ++ d) ∧
    ∃ r t, (doi_to_pdf_downloader env a = .returned r t ∨
            doi_to_pdf_downloader env a = .exited r t) ∧
      r.resolved_doi = some ("https://doi.org/" ++ d) ∧
      r.paper_title = pyReplaceChar (pyReplaceChar ("https://doi.org/" ++ d) '/' '_') '.' '_' ∧
      "FAILURE_OPENALEX_METADATA" ∈ t ∧
      r.scihub_page_url_tried = some (scihub_page_url ("https://doi.org/" ++ d)) := by
  have hne : ("https://doi.org/" ++ d) ≠ "" :=
    prefixed_doi_ne_empty "https://doi.org/" d (by decide)
  refine ⟨normalize_doi_https d, normalize_doi_http d, ?_, ?_⟩
  · simp only [doi_api_url, normalize_doi_https, normalize_doi_http]
  · simp only [doi_to_pdf_downloader]
    rw [stage1_notFound_doi env a _ m ("https://doi.org/" ++ d) hm hd hne]
    dsimp only
    refine pipeline_keeps_notfound_fields env a _ ("https://doi.org/" ++ d) _ hne ?_ ?_ ?_
    · simp
    · simp
    · rw [putPaperTitle_trace, putResolvedDoi_trace, setStatus_trace]
      exact List.mem_append_right _ (by simp)

/-- The C8 policy at a concrete NotFound environment: the bare DOI for the
query, the literal prefixed DOI for the fallback. -/
theorem doi_normalization_policy_witness :
    normalize_doi ("https://doi.org/" ++ "10.1/x") = "10.1/x" ∧
    normalize_doi ("http://doi.org/" ++ "10.1/x") = "10.1/x" ∧
    doi_api_url ("http://doi.org/" ++ "10.1/x") =
      doi_api_url ("https://doi.org/" ++ "10.1/x") ∧
    ∃ r t, (doi_to_pdf_downloader c8Env c8ArgsHttps = .returned r t ∨
            doi_to_pdf_downloader c8Env c8ArgsHttps = .exited r t) ∧
      r.resolved_doi = some ("https://doi.org/" ++ "10.1/x") ∧
      r.paper_title =
        pyReplaceChar (pyReplaceChar ("https://doi.org/" ++ "10.1/x") '/' '_') '.' '_' ∧
      "FAILURE_OPENALEX_METADATA" ∈ t ∧
      r.scihub_page_url_tried = some (scihub_page_url ("https://doi.org/" ++ "10.1/x")) :=
  doi_normalization_policy c8Env c8ArgsHttps "10.1/x" "HTTP 404" rfl rfl

end Doi2Pdf
